import Mathlib

/-!
# Socket transport `plugins/builtin/cio_socket.c`

A shallow embedding of the POSIX build (the `#ifndef _WIN32` branches) of the
socket communication plugin, followed by theorems about it.

* C pointers that the source tests against `NULL` are `Option`s.
* C `int` values are `Int`; where the source can overflow, the wrap-around to
  32 bits is written out (`wrap_int`).  The `size_t` and `my_bool` return types
  are made explicit by `to_size_t` and `to_my_bool`.
* The operating system is an explicit state `OS`: the global `errno`, one
  script of outcomes per system call (a call consumes the head of its script),
  the set of open descriptors and a trace of the calls made so far.  A function
  of the embedding returns `none` only when a script it needs is exhausted.
-/

namespace CioSocket

/-! ## C integer conversions -/

/-- Value of a C `int` expression after two's complement wrap-around to 32 bits. -/
def wrap_int (x : Int) : Int := (x + 2 ^ 31) % 2 ^ 32 - 2 ^ 31

/-- Conversion of a signed value to the `size_t` (64 bit) return type. -/
def to_size_t (x : Int) : Nat := (x % 2 ^ 64).toNat

/-- Conversion of an `int` to `my_bool`, which `my_global.h` declares as `char`
(signed, 8 bits). -/
def to_my_bool (x : Int) : Int := (x + 128) % 256 - 128

/-! ## Constants of the system headers (Linux values) -/

def EINTR : Int := 4
def EAGAIN : Int := 11
def EWOULDBLOCK : Int := 11
def ETIMEDOUT : Int := 110
def ECONNREFUSED : Int := 111
def EINPROGRESS : Int := 115
def EBADF : Int := 9
def SOCKET_ERROR : Int := -1
/-- The non-blocking bit of the descriptor flags, `04000` in `fcntl.h`. -/
def O_NONBLOCK : Nat := 2 ^ 11

/-! ## Data model -/

/-- The three timeout slots of `cio->timeout[]`. -/
inductive enum_cio_timeout
  | CIO_CONNECT_TIMEOUT
  | CIO_READ_TIMEOUT
  | CIO_WRITE_TIMEOUT
deriving DecidableEq, Repr

/-- The array `cio->timeout[]`, one `int` (milliseconds) per slot. -/
structure Timeouts where
  connect : Int
  read : Int
  write : Int
deriving DecidableEq, Repr

def Timeouts.get (t : Timeouts) : enum_cio_timeout → Int
  | .CIO_CONNECT_TIMEOUT => t.connect
  | .CIO_READ_TIMEOUT => t.read
  | .CIO_WRITE_TIMEOUT => t.write

def Timeouts.set (t : Timeouts) (k : enum_cio_timeout) (v : Int) : Timeouts :=
  match k with
  | .CIO_CONNECT_TIMEOUT => { t with connect := v }
  | .CIO_READ_TIMEOUT => { t with read := v }
  | .CIO_WRITE_TIMEOUT => { t with write := v }

/-- The plugin's private state `struct st_cio_socket`; `fcntl_mode` is kept as
the 32 bit pattern of the C `int`. -/
structure st_cio_socket where
  socket : Int
  fcntl_mode : Nat
deriving DecidableEq, Repr

/-- The two transport kinds that `cio_socket_connect` distinguishes. -/
inductive enum_cio_type
  | CIO_TYPE_UNIXSOCKET
  | CIO_TYPE_SOCKET
deriving DecidableEq, Repr

/-- The fields of `MARIADB_CIO` that the plugin uses.  `cio->mysql` aliases the
session object, which the embedding passes around explicitly; the field only
records whether the pointer has been set. -/
structure MARIADB_CIO where
  data : Option st_cio_socket
  timeout : Timeouts
  mysql_set : Bool
  type : Option enum_cio_type
deriving DecidableEq, Repr

/-! ## Timeout policy -/

/-- Embedding of `cio_socket_set_timeout`: the returned pair is the `my_bool`
result and the transport after the call. -/
def cio_socket_set_timeout (cio : Option MARIADB_CIO) (type : enum_cio_timeout)
    (timeout : Int) : Int × Option MARIADB_CIO :=
  match cio with
  | none => (1, none)
  | some c =>
    (0, some { c with
      timeout := c.timeout.set type (if timeout > 0 then wrap_int (timeout * 1000) else -1) })

/-- Embedding of `cio_socket_get_timeout`; C division truncates toward zero. -/
def cio_socket_get_timeout (cio : Option MARIADB_CIO) (type : enum_cio_timeout) : Int :=
  match cio with
  | none => -1
  | some c => (c.timeout.get type).tdiv 1000

/-! ## Operating system model -/

/-- Outcome of one system call: its return code and, for a failing call
(return code `-1`), the value it leaves in `errno`.  A call that does not fail
leaves `errno` untouched. -/
structure Outcome where
  rc : Int
  err : Int
deriving DecidableEq, Repr

/-- One resolved candidate address (`struct addrinfo`); `ai_addr` stands for the
socket address it points to. -/
structure addrinfo where
  ai_family : Int
  ai_socktype : Int
  ai_protocol : Int
  ai_addr : Nat
deriving DecidableEq, Repr

/-- Calls recorded in the trace.  `wait` marks an entry into
`cio_socket_wait_io_or_timeout`; the others are calls into the system or the
allocator. -/
inductive Call
  | recv (fd : Int)
  | send (fd : Int)
  | wait (is_read : Bool) (timeout : Int)
  | poll (fd : Int) (pollin : Bool) (timeout : Int)
  | fcntl (fd : Int) (flags : Nat)
  | socket (ai : addrinfo)
  | bind (fd : Int) (addr : Nat)
  | connect (fd : Int) (addr : Nat)
  | connect_async (fd : Int) (addr : Nat) (timeout : Int)
  | getsockopt (fd : Int)
  | setsockopt (fd : Int) (level : Nat) (optname : Nat)
  | shutdown (fd : Int)
  | closesocket (fd : Int)
  | my_free
deriving DecidableEq, Repr

/-- State of the world outside the plugin. -/
structure OS where
  errno : Int
  xfers : List Outcome
  polls : List Outcome
  fcntls : List Outcome
  sockets : List Outcome
  binds : List Outcome
  connects : List Outcome
  getsockopts : List (Outcome × Int)
  asyncs : List Int
  resolves : List (Int × List addrinfo)
  malloc_ok : Bool
  open_fds : List Int
  trace : List Call
deriving DecidableEq, Repr

/-- Value of `errno` after a call with outcome `o`. -/
def OS.errno_after (os : OS) (o : Outcome) : Int :=
  if o.rc = -1 then o.err else os.errno

/-- One `recv` (`is_read`) or `send` on descriptor `fd`. -/
def sys_xfer (is_read : Bool) (fd : Int) (os : OS) : Option (Int × OS) :=
  match os.xfers with
  | [] => none
  | o :: rest =>
    some (o.rc, { os with
      xfers := rest, errno := os.errno_after o,
      trace := os.trace ++ [if is_read then Call.recv fd else Call.send fd] })

/-- One `poll` on descriptor `fd` for `POLLIN` (`pollin`) or `POLLOUT`. -/
def sys_poll (fd : Int) (pollin : Bool) (timeout : Int) (os : OS) : Option (Int × OS) :=
  match os.polls with
  | [] => none
  | o :: rest =>
    some (o.rc, { os with
      polls := rest, errno := os.errno_after o,
      trace := os.trace ++ [Call.poll fd pollin timeout] })

/-- One `fcntl(fd, F_SETFL, flags)`. -/
def sys_fcntl (fd : Int) (flags : Nat) (os : OS) : Option (Int × OS) :=
  match os.fcntls with
  | [] => none
  | o :: rest =>
    some (o.rc, { os with
      fcntls := rest, errno := os.errno_after o,
      trace := os.trace ++ [Call.fcntl fd flags] })

/-- The loop `do { r= call(); } while (r == -1 && errno == EINTR);` used around
`recv`, `send` and `connect`. -/
def retry_on_eintr (call : OS → Option (Int × OS)) : Nat → OS → Option (Int × OS)
  | 0, _ => none
  | fuel + 1, os =>
    match call os with
    | none => none
    | some (r, os1) =>
      if r = -1 ∧ os1.errno = EINTR then retry_on_eintr call fuel os1 else some (r, os1)

/-! ## I/O wait primitive -/

/-- The loop `do { rc= poll(&p_fd, 1, timeout); } while (rc == -1 || errno == EINTR);`. -/
def poll_loop (fd : Int) (pollin : Bool) (timeout : Int) : Nat → OS → Option (Int × OS)
  | 0, _ => none
  | fuel + 1, os =>
    match sys_poll fd pollin timeout os with
    | none => none
    | some (rc, os1) =>
      if rc = -1 ∨ os1.errno = EINTR then poll_loop fd pollin timeout fuel os1
      else some (rc, os1)

/-- Embedding of `cio_socket_wait_io_or_timeout`.  Every poll consumes one
scripted outcome, so the length of the script is enough fuel for the loop. -/
def cio_socket_wait_io_or_timeout (cio : Option MARIADB_CIO) (is_read : Bool) (timeout : Int)
    (os : OS) : Option (Int × OS) :=
  let os0 := { os with trace := os.trace ++ [Call.wait is_read timeout] }
  match cio with
  | none => some (0, os0)
  | some c =>
    match c.data with
    | none => some (0, os0)
    | some csock =>
      match poll_loop csock.socket is_read timeout os0.polls.length os0 with
      | none => none
      | some (rc, os1) =>
        some (rc, if rc = 0 then { os1 with errno := ETIMEDOUT } else os1)

/-! ## Read and write engines -/

/-- The second loop of `cio_socket_read`: while the last `recv` reported
would-block and a read timeout is configured, wait and receive again. -/
def read_wait_loop (c : MARIADB_CIO) (csock : st_cio_socket) :
    Nat → Int → OS → Option (Nat × OS)
  | 0, _, _ => none
  | fuel + 1, r, os =>
    if r = -1 ∧ (os.errno = EAGAIN ∨ os.errno = EWOULDBLOCK)
        ∧ c.timeout.get .CIO_READ_TIMEOUT > 0 then
      match cio_socket_wait_io_or_timeout (some c) true (c.timeout.get .CIO_READ_TIMEOUT) os with
      | none => none
      | some (w, os1) =>
        if w < 1 then some (to_size_t (-1), os1)
        else
          match retry_on_eintr (sys_xfer true csock.socket) os1.xfers.length os1 with
          | none => none
          | some (r1, os2) => read_wait_loop c csock fuel r1 os2
    else some (to_size_t r, os)

/-- Embedding of `cio_socket_read` (POSIX branch).  Each pass of the second loop
consumes at least one transfer outcome, which bounds the fuel it needs. -/
def cio_socket_read (cio : Option MARIADB_CIO) (os : OS) : Option (Nat × OS) :=
  match cio with
  | none => some (to_size_t (-1), os)
  | some c =>
    match c.data with
    | none => some (to_size_t (-1), os)
    | some csock =>
      match retry_on_eintr (sys_xfer true csock.socket) os.xfers.length os with
      | none => none
      | some (r, os1) => read_wait_loop c csock (os1.xfers.length + 1) r os1

/-- The second loop of `cio_socket_write`: while the last `send` reported
would-block and the write timeout is not zero, wait and send again. -/
def write_wait_loop (c : MARIADB_CIO) (csock : st_cio_socket) :
    Nat → Int → OS → Option (Nat × OS)
  | 0, _, _ => none
  | fuel + 1, r, os =>
    if r = -1 ∧ (os.errno = EAGAIN ∨ os.errno = EWOULDBLOCK)
        ∧ c.timeout.get .CIO_WRITE_TIMEOUT ≠ 0 then
      match cio_socket_wait_io_or_timeout (some c) false (c.timeout.get .CIO_WRITE_TIMEOUT) os with
      | none => none
      | some (w, os1) =>
        if w < 1 then some (to_size_t (-1), os1)
        else
          match retry_on_eintr (sys_xfer false csock.socket) os1.xfers.length os1 with
          | none => none
          | some (r1, os2) => write_wait_loop c csock fuel r1 os2
    else some (to_size_t r, os)

/-- Embedding of `cio_socket_write` (POSIX branch). -/
def cio_socket_write (cio : Option MARIADB_CIO) (os : OS) : Option (Nat × OS) :=
  match cio with
  | none => some (to_size_t (-1), os)
  | some c =>
    match c.data with
    | none => some (to_size_t (-1), os)
    | some csock =>
      match retry_on_eintr (sys_xfer false csock.socket) os.xfers.length os with
      | none => none
      | some (r, os1) => write_wait_loop c csock (os1.xfers.length + 1) r os1

/-! ## Blocking mode controller -/

/-- Bitwise complement `~x` of a 32 bit pattern. -/
def bit_not32 (x : Nat) : Nat := x ^^^ (2 ^ 32 - 1)

/-- The body of `cio_socket_blocking` after its `NULL` checks (`O_NONBLOCK`
branch): the result is the return value, the value written to
`*previous_mode`, the private state after the call and the world. -/
def set_blocking (csock : st_cio_socket) (block : Bool) (os : OS) :
    Option (Int × Bool × st_cio_socket × OS) :=
  let save_flags := csock.fcntl_mode
  let previous_mode := decide (save_flags &&& O_NONBLOCK ≠ 0)
  let sd_flags := if block then save_flags &&& bit_not32 O_NONBLOCK else save_flags ||| O_NONBLOCK
  match sys_fcntl csock.socket sd_flags os with
  | none => none
  | some (rc, os1) =>
    if rc = -1 then
      some (to_my_bool os1.errno, previous_mode, { csock with fcntl_mode := save_flags }, os1)
    else some (0, previous_mode, { csock with fcntl_mode := sd_flags }, os1)

/-- Embedding of `cio_socket_blocking`.  The second component is the value
written through `previous_mode` (or the local `tmp`), `none` when the function
returns before writing it. -/
def cio_socket_blocking (cio : Option MARIADB_CIO) (block : Bool) (os : OS) :
    Option (Int × Option Bool × Option MARIADB_CIO × OS) :=
  match cio with
  | none => some (1, none, none, os)
  | some c =>
    match c.data with
    | none => some (1, none, some c, os)
    | some csock =>
      match set_blocking csock block os with
      | none => none
      | some (r, previous_mode, csock1, os1) =>
        some (r, some previous_mode, some { c with data := some csock1 }, os1)

/-- Embedding of `cio_socket_is_blocking`. -/
def cio_socket_is_blocking (cio : Option MARIADB_CIO) : Bool :=
  match cio with
  | none => false
  | some c =>
    match c.data with
    | none => false
    | some csock => decide (csock.fcntl_mode &&& O_NONBLOCK = 0)

/-! ## Connect engine -/

/-- Client error codes passed to `CIO_SET_ERROR`. -/
inductive client_error
  | CR_OUT_OF_MEMORY
  | CR_SOCKET_CREATE_ERROR
  | CR_CONNECTION_ERROR
  | CR_BIND_ADDR_FAILED
  | CR_UNKNOWN_HOST
  | CR_IPSOCK_ERROR
  | CR_CONN_HOST_ERROR
deriving DecidableEq, Repr

/-- The parts of the session object `MYSQL` that the plugin reads, and the
error last reported to it (error code and platform error value). -/
structure MYSQL where
  bind_address : Option String
  async_active : Bool
  last_error : Option (client_error × Int)
deriving DecidableEq, Repr

/-- Modelled from the spec: the macro `CIO_SET_ERROR` is declared outside this
source file; the transport reports an error kind together with the platform
error value to the owning session object. -/
def CIO_SET_ERROR (mysql : MYSQL) (code : client_error) (detail : Int) : MYSQL :=
  { mysql with last_error := some (code, detail) }

/-- The target descriptor `MA_CIO_CINFO`; `cinfo->mysql` is passed separately.
A `type` other than the two kinds this plugin handles is `none`. -/
structure MA_CIO_CINFO where
  type : Option enum_cio_type
  host : String
  port : Int
  unix_socket : String
deriving DecidableEq, Repr

/-- One `socket()` call; a descriptor that was created is recorded as open. -/
def sys_socket (ai : addrinfo) (os : OS) : Option (Int × OS) :=
  match os.sockets with
  | [] => none
  | o :: rest =>
    some (o.rc, { os with
      sockets := rest, errno := os.errno_after o,
      open_fds := if o.rc = -1 then os.open_fds else o.rc :: os.open_fds,
      trace := os.trace ++ [Call.socket ai] })

/-- One `closesocket(fd)`; the source ignores its result here. -/
def sys_closesocket (fd : Int) (os : OS) : OS :=
  { os with open_fds := os.open_fds.erase fd, trace := os.trace ++ [Call.closesocket fd] }

/-- One `bind()` call. -/
def sys_bind (fd : Int) (addr : Nat) (os : OS) : Option (Int × OS) :=
  match os.binds with
  | [] => none
  | o :: rest =>
    some (o.rc, { os with
      binds := rest, errno := os.errno_after o, trace := os.trace ++ [Call.bind fd addr] })

/-- One `connect()` call. -/
def sys_connect (fd : Int) (addr : Nat) (os : OS) : Option (Int × OS) :=
  match os.connects with
  | [] => none
  | o :: rest =>
    some (o.rc, { os with
      connects := rest, errno := os.errno_after o,
      trace := os.trace ++ [Call.connect fd addr] })

/-- One `getsockopt(fd, SOL_SOCKET, SO_ERROR, ...)`: return code and the pending
error value it stores. -/
def sys_getsockopt (fd : Int) (os : OS) : Option (Int × Int × OS) :=
  match os.getsockopts with
  | [] => none
  | (o, error) :: rest =>
    some (o.rc, error, { os with
      getsockopts := rest, errno := os.errno_after o,
      trace := os.trace ++ [Call.getsockopt fd] })

/-- One `getaddrinfo()` call: its return code and the list it stores. -/
def sys_getaddrinfo (os : OS) : Option (Int × List addrinfo × OS) :=
  match os.resolves with
  | [] => none
  | (gai_rc, res) :: rest => some (gai_rc, res, { os with resolves := rest })

/-- The scheduler's `my_connect_async`, which is defined outside this source
file: its result is taken from a script. -/
def my_connect_async (fd : Int) (addr : Nat) (timeout : Int) (os : OS) : Option (Int × OS) :=
  match os.asyncs with
  | [] => none
  | r :: rest =>
    some (r, { os with asyncs := rest, trace := os.trace ++ [Call.connect_async fd addr timeout] })

/-- Embedding of `cio_socket_internal_connect` (POSIX branch) for a transport
`c` whose private state is `csock`. -/
def cio_socket_internal_connect (c : MARIADB_CIO) (csock : st_cio_socket) (name : Nat)
    (os : OS) : Option (Int × st_cio_socket × OS) :=
  let timeout := c.timeout.get .CIO_CONNECT_TIMEOUT
  match set_blocking csock false os with
  | none => none
  | some (_, _, csock1, os1) =>
    match retry_on_eintr (sys_connect csock1.socket name) os1.connects.length os1 with
    | none => none
    | some (rc, os2) =>
      if timeout ≠ 0 ∧ rc = -1 ∧ (os2.errno = EINPROGRESS ∨ os2.errno = EAGAIN) then
        match cio_socket_wait_io_or_timeout (some { c with data := some csock1 }) false
            timeout os2 with
        | none => none
        | some (w, os3) =>
          if w < 1 then some (-1, csock1, os3)
          else
            match sys_getsockopt csock1.socket os3 with
            | none => none
            | some (g, error, os4) =>
              if g < 0 then some (os4.errno, csock1, os4)
              else if error ≠ 0 then some (error, csock1, os4)
              else some (g, csock1, os4)
      else some (rc, csock1, os2)

/-- Embedding of `cio_socket_connect_sync_or_async`. -/
def cio_socket_connect_sync_or_async (mysql : MYSQL) (c : MARIADB_CIO) (csock : st_cio_socket)
    (name : Nat) (os : OS) : Option (Int × st_cio_socket × OS) :=
  if mysql.async_active then
    match set_blocking csock false os with
    | none => none
    | some (_, _, csock1, os1) =>
      match my_connect_async csock1.socket name (c.timeout.get .CIO_CONNECT_TIMEOUT) os1 with
      | none => none
      | some (r, os2) => some (r, csock1, os2)
  else cio_socket_internal_connect c csock name os

/-- The loop `for (bind_res= bres; bind_res; bind_res= bind_res->ai_next)` of
`cio_socket_connect`: result is `rc`, the value of `bind_res` on exit and the
world. -/
def bind_loop (fd : Int) : List addrinfo → Int → OS → Option (Int × List addrinfo × OS)
  | [], rc, os => some (rc, [], os)
  | b :: rest, _, os =>
    match sys_bind fd b.ai_addr os with
    | none => none
    | some (r, os1) => if r = 0 then some (r, b :: rest, os1) else bind_loop fd rest r os1

/-- The loop over the remote candidates in `cio_socket_connect`.  The state is
the private state `csock`, the variables `rc` and `bind_res`, and the world. -/
def connect_loop (mysql : MYSQL) (c : MARIADB_CIO) (bres : List addrinfo) :
    List addrinfo → st_cio_socket → Int → List addrinfo → OS →
    Option (st_cio_socket × Int × OS)
  | [], csock, rc, _, os => some (csock, rc, os)
  | save_res :: next, csock, rc, bind_res, os =>
    match sys_socket save_res os with
    | none => none
    | some (s, os1) =>
      let csock1 := { csock with socket := s }
      if s = SOCKET_ERROR then connect_loop mysql c bres next csock1 rc bind_res os1
      else
        match (if bind_res ≠ [] then bind_loop s bres rc os1 else some (rc, bind_res, os1)) with
        | none => none
        | some (rc1, bind_res1, os2) =>
          if bind_res ≠ [] ∧ rc1 ≠ 0 then
            connect_loop mysql c bres next csock1 rc1 bind_res1 (sys_closesocket s os2)
          else
            match cio_socket_connect_sync_or_async mysql c csock1 save_res.ai_addr os2 with
            | none => none
            | some (rc2, csock2, os3) =>
              if rc2 = 0 then
                match set_blocking csock2 true os3 with
                | none => none
                | some (b, _, csock3, os4) =>
                  if b = SOCKET_ERROR then
                    connect_loop mysql c bres next csock3 rc2 bind_res1
                      (sys_closesocket csock3.socket os4)
                  else some (csock3, rc2, os4)
              else connect_loop mysql c bres next csock2 rc2 bind_res1 os3

/-- The `error:` label of `cio_socket_connect`: release `cio->data`, return 1. -/
def connect_error (c : MARIADB_CIO) (mysql : MYSQL) (os : OS) :
    Int × Option MARIADB_CIO × MYSQL × OS :=
  match c.data with
  | none => (1, some c, mysql, os)
  | some _ => (1, some { c with data := none }, mysql, { os with trace := os.trace ++ [Call.my_free] })

/-- The `CIO_TYPE_UNIXSOCKET` branch of `cio_socket_connect`. -/
def connect_unix (c : MARIADB_CIO) (csock : st_cio_socket) (mysql : MYSQL) (os : OS) :
    Option (Int × Option MARIADB_CIO × MYSQL × OS) :=
  match sys_socket ⟨1, 1, 0, 0⟩ os with
  | none => none
  | some (s, os1) =>
    let csock1 := { csock with socket := s }
    let c1 := { c with data := some csock1 }
    if s = SOCKET_ERROR then
      some (connect_error c1 (CIO_SET_ERROR mysql .CR_SOCKET_CREATE_ERROR os1.errno) os1)
    else
      match cio_socket_connect_sync_or_async mysql c1 csock1 0 os1 with
      | none => none
      | some (rc, csock2, os2) =>
        let c2 := { c with data := some csock2 }
        if rc ≠ 0 then
          some (connect_error c2 (CIO_SET_ERROR mysql .CR_CONNECTION_ERROR os2.errno) os2)
        else
          match set_blocking csock2 true os2 with
          | none => none
          | some (b, _, csock3, os3) =>
            let c3 := { c with data := some csock3 }
            if b = SOCKET_ERROR then some (connect_error c3 mysql os3)
            else some (0, some c3, mysql, os3)

/-- The `CIO_TYPE_SOCKET` branch of `cio_socket_connect`.  The address list of
the bind address is stored through `&res`, so `bres` and `bind_res` keep their
initial value `0` (the empty list). -/
def connect_network (c : MARIADB_CIO) (csock : st_cio_socket) (mysql : MYSQL) (os : OS) :
    Option (Int × Option MARIADB_CIO × MYSQL × OS) :=
  let bres : List addrinfo := []
  let bind_res : List addrinfo := []
  let c0 := { c with data := some csock }
  match (if mysql.bind_address.isSome then sys_getaddrinfo os else some (0, [], os)) with
  | none => none
  | some (gai_rc, _, os1) =>
    if gai_rc ≠ 0 then
      some (connect_error c0 (CIO_SET_ERROR mysql .CR_BIND_ADDR_FAILED gai_rc) os1)
    else
      match sys_getaddrinfo os1 with
      | none => none
      | some (gai_rc2, res, os2) =>
        if gai_rc2 ≠ 0 then
          some (connect_error c0 (CIO_SET_ERROR mysql .CR_UNKNOWN_HOST gai_rc2) os2)
        else
          match connect_loop mysql c0 bres res csock 0 bind_res os2 with
          | none => none
          | some (csock1, rc, os3) =>
            let c1 := { c with data := some csock1 }
            if csock1.socket = SOCKET_ERROR then
              some (connect_error c1 (CIO_SET_ERROR mysql .CR_IPSOCK_ERROR os3.errno) os3)
            else if rc ≠ 0 then
              some (connect_error c1 (CIO_SET_ERROR mysql .CR_CONN_HOST_ERROR os3.errno) os3)
            else some (0, some c1, mysql, os3)

/-- Embedding of `cio_socket_connect` (POSIX branch): return value, transport,
session and world after the call.  `my_malloc` zero-fills the private state. -/
def cio_socket_connect (cio : Option MARIADB_CIO) (cinfo : Option MA_CIO_CINFO) (mysql : MYSQL)
    (os : OS) : Option (Int × Option MARIADB_CIO × MYSQL × OS) :=
  match cio, cinfo with
  | none, _ => some (1, none, mysql, os)
  | some c, none => some (1, some c, mysql, os)
  | some c, some ci =>
    if os.malloc_ok = false then
      some (1, some c, CIO_SET_ERROR mysql .CR_OUT_OF_MEMORY 0, os)
    else
      let csock : st_cio_socket := { socket := -1, fcntl_mode := 0 }
      let c1 := { c with data := some csock, mysql_set := true, type := ci.type }
      match ci.type with
      | some .CIO_TYPE_UNIXSOCKET => connect_unix c1 csock mysql os
      | some .CIO_TYPE_SOCKET => connect_network c1 csock mysql os
      | none => some (0, some c1, mysql, os)

/-! ## Lifecycle: close -/

/-- One `shutdown(fd, 2)` whose outcome is `o`. -/
def sys_shutdown (fd : Int) (o : Outcome) (os : OS) : Int × OS :=
  (o.rc, { os with errno := os.errno_after o, trace := os.trace ++ [Call.shutdown fd] })

/-- One `closesocket(fd)` whose outcome `o` is used by the caller. -/
def sys_closesocket_rc (fd : Int) (o : Outcome) (os : OS) : Int × OS :=
  (o.rc, { sys_closesocket fd os with errno := os.errno_after o })

/-- Embedding of `cio_socket_close`: return value (`int r` converted to
`my_bool`), transport and world after the call.  `sd` and `cl` are the outcomes
of `shutdown` and `closesocket`, should the function call them. -/
def cio_socket_close (cio : Option MARIADB_CIO) (sd cl : Outcome) (os : OS) :
    Int × Option MARIADB_CIO × OS :=
  match cio with
  | none => (1, none, os)
  | some c =>
    match c.data with
    | none => (to_my_bool 0, some c, os)
    | some csock =>
      if csock.socket ≠ -1 then
        let os1 := (sys_shutdown csock.socket sd os).2
        let rc := sys_closesocket_rc csock.socket cl os1
        (to_my_bool rc.1, some { c with data := none },
          { rc.2 with trace := rc.2.trace ++ [Call.my_free] })
      else
        (to_my_bool 0, some { c with data := none },
          { os with trace := os.trace ++ [Call.my_free] })

/-! ## Socket option tuning -/

def IPPROTO_IP : Nat := 0
def IP_TOS : Nat := 1
def IPPROTO_TCP : Nat := 6
def TCP_NODELAY : Nat := 1

/-- One `setsockopt(fd, level, optname, ...)` whose outcome is `o`. -/
def sys_setsockopt (fd : Int) (level optname : Nat) (o : Outcome) (os : OS) : Int × OS :=
  (o.rc, { os with
    errno := os.errno_after o, trace := os.trace ++ [Call.setsockopt fd level optname] })

/-- Embedding of `cio_socket_fast_send` (POSIX branch, `IPTOS_THROUGHPUT`
defined by `netinet/ip.h`).  `tos` is the outcome of the `IP_TOS` call and
`nodelay` the outcome of the `TCP_NODELAY` call, should it be made. -/
def cio_socket_fast_send (cio : Option MARIADB_CIO) (tos nodelay : Outcome) (os : OS) :
    Int × OS :=
  match cio with
  | none => (1, os)
  | some c =>
    match c.data with
    | none => (1, os)
    | some csock =>
      let r := sys_setsockopt csock.socket IPPROTO_IP IP_TOS tos os
      if r.1 = 0 then sys_setsockopt csock.socket IPPROTO_TCP TCP_NODELAY nodelay r.2
      else r

/-! ## Observations on traces -/

/-- Timeout arguments of the entries into the wait primitive recorded in a trace. -/
def wait_timeouts : List Call → List Int
  | [] => []
  | Call.wait _ t :: rest => t :: wait_timeouts rest
  | _ :: rest => wait_timeouts rest

/-! ## Concrete inputs used by the evaluations below -/

/-- An idle world: empty scripts, `errno` clear, no descriptor open. -/
def os_idle : OS :=
  { errno := 0, xfers := [], polls := [], fcntls := [], sockets := [], binds := [],
    connects := [], getsockopts := [], asyncs := [], resolves := [], malloc_ok := true,
    open_fds := [], trace := [] }

/-- A connected transport on descriptor 3 in blocking mode, no timeout set yet
(the slots hold the value that `cio_socket_set_timeout` stores for "none"). -/
def cio_connected : MARIADB_CIO :=
  { data := some { socket := 3, fcntl_mode := 0 },
    timeout := { connect := -1, read := -1, write := -1 },
    mysql_set := true, type := some .CIO_TYPE_SOCKET }

/-- A transport before `cio_socket_connect`: no private state. -/
def cio_fresh : MARIADB_CIO :=
  { data := none, timeout := { connect := -1, read := -1, write := -1 },
    mysql_set := false, type := none }

/-- A session without bind address and without active scheduler. -/
def mysql_plain : MYSQL := { bind_address := none, async_active := false, last_error := none }

/-- A network target. -/
def cinfo_tcp : MA_CIO_CINFO :=
  { type := some .CIO_TYPE_SOCKET, host := "db", port := 3306, unix_socket := "" }

/-- A resolved IPv4/TCP candidate with address tag `a`. -/
def candidate (a : Nat) : addrinfo := { ai_family := 2, ai_socktype := 1, ai_protocol := 6, ai_addr := a }

/-- A world in which the transfer reports would-block twice before it moves five
bytes, the descriptor becoming ready after each would-block. -/
def os_two_wouldblocks : OS :=
  { os_idle with
    xfers := [⟨-1, EAGAIN⟩, ⟨-1, EAGAIN⟩, ⟨5, 0⟩]
    polls := [⟨1, 0⟩, ⟨1, 0⟩] }

/-- The connected transport with read and write timeout of one second, as left
by `cio_socket_set_timeout(cio, kind, 1)`. -/
def cio_one_second : MARIADB_CIO :=
  { cio_connected with timeout := { connect := -1, read := 1000, write := 1000 } }

/-- A world in which the transfer reports would-block once and then moves five
bytes, the descriptor becoming ready in between. -/
def os_one_wouldblock : OS :=
  { os_idle with xfers := [⟨-1, EAGAIN⟩, ⟨5, 0⟩], polls := [⟨1, 0⟩] }

/-- The caller's sequence "toggle blocking off, then set the mode back to the
reported previous mode": the result is the previous mode reported by the first
call and the value of `cio_socket_is_blocking` after the second call. -/
def toggle_off_and_restore (cio : Option MARIADB_CIO) (os : OS) : Option (Bool × Bool) :=
  match cio_socket_blocking cio false os with
  | some (_, some previous_mode, cio1, os1) =>
    match cio_socket_blocking cio1 previous_mode os1 with
    | some (_, _, cio2, _) => some (previous_mode, cio_socket_is_blocking cio2)
    | none => none
  | _ => none

/-- A world for a connect to a host with two candidates: both sockets are
created (descriptors 3 and 4), both mode changes succeed and both `connect`
calls are refused. -/
def os_all_refused : OS :=
  { os_idle with
    resolves := [(0, [candidate 1, candidate 2])]
    sockets := [⟨3, 0⟩, ⟨4, 0⟩]
    fcntls := [⟨0, 0⟩, ⟨0, 0⟩]
    connects := [⟨-1, ECONNREFUSED⟩, ⟨-1, ECONNREFUSED⟩] }

/-- A world for a connect to a host with three candidates: `socket()` fails for
the first one and returns descriptor 3 for the second one, whose `connect`
succeeds. -/
def os_second_candidate : OS :=
  { os_idle with
    resolves := [(0, [candidate 1, candidate 2, candidate 3])]
    sockets := [⟨-1, 24⟩, ⟨3, 0⟩]
    fcntls := [⟨0, 0⟩, ⟨0, 0⟩]
    connects := [⟨0, 0⟩] }

/-- A session with a configured bind address and without active scheduler. -/
def mysql_bound : MYSQL :=
  { bind_address := some "10.0.0.1", async_active := false, last_error := none }

/-- A world for a connect with a bind address: the bind address resolves to one
local candidate, the host to one remote candidate; the socket is created as
descriptor 3, a `bind` on it would fail, a `connect` on it succeeds. -/
def os_bind_would_fail : OS :=
  { os_idle with
    resolves := [(0, [candidate 9]), (0, [candidate 1])]
    sockets := [⟨3, 0⟩]
    binds := [⟨-1, 99⟩]
    fcntls := [⟨0, 0⟩, ⟨0, 0⟩]
    connects := [⟨0, 0⟩] }

/-- A session with an active cooperative scheduler. -/
def mysql_async : MYSQL := { bind_address := none, async_active := true, last_error := none }

/-- As `os_second_candidate`, with a bind address to resolve first, and with a
`connect` on descriptor 3 that is interrupted once and then reports that the
connection is in progress; the descriptor becomes writable and its pending
error is 0. -/
def os_second_candidate_in_progress : OS :=
  { os_idle with
    resolves := [(0, [candidate 9]), (0, [candidate 1, candidate 2, candidate 3])]
    sockets := [⟨-1, 24⟩, ⟨3, 0⟩]
    fcntls := [⟨0, 0⟩, ⟨0, 0⟩]
    connects := [⟨-1, EINTR⟩, ⟨-1, EINPROGRESS⟩]
    polls := [⟨1, 0⟩]
    getsockopts := [(⟨0, 0⟩, 0)] }

/-- As `os_second_candidate`, for an active scheduler whose `my_connect_async`
returns 0. -/
def os_second_candidate_async : OS :=
  { os_idle with
    resolves := [(0, [candidate 1, candidate 2, candidate 3])]
    sockets := [⟨-1, 24⟩, ⟨3, 0⟩]
    fcntls := [⟨0, 0⟩, ⟨0, 0⟩]
    asyncs := [0] }

/-! # Theorems -/

/-! ## Timeout policy -/

theorem wrap_int_of_small (x : Int) (h0 : 0 ≤ x) (h1 : x < 2 ^ 31) : wrap_int x = x := by
  unfold wrap_int
  omega

theorem timeouts_get_set (t : Timeouts) (k : enum_cio_timeout) (v : Int) :
    (t.set k v).get k = v := by
  cases k <;> rfl

/-- C1 as stated fails: after `set_timeout(0)` the getter returns 0, not the
sentinel -1 (the stored -1 divided by 1000 truncates to 0), and with 32 bit
wrap-around `set_timeout(2147484)` does not read back as 2147484. -/
theorem c1_timeout_roundtrip_counterexample :
    cio_socket_get_timeout
        (cio_socket_set_timeout (some cio_connected) .CIO_READ_TIMEOUT 0).2 .CIO_READ_TIMEOUT ≠ -1
    ∧ cio_socket_get_timeout
        (cio_socket_set_timeout (some cio_connected) .CIO_READ_TIMEOUT 2147484).2
        .CIO_READ_TIMEOUT ≠ 2147484 := by
  decide

/-- C1 (amended): on a valid transport, for every timeout kind,
`get_timeout` after `set_timeout(t)` returns `t` when `0 < t ≤ 2147483`
(so that `t * 1000` fits a C `int`), and returns 0 when `t ≤ 0`. -/
theorem c1_timeout_roundtrip (c : MARIADB_CIO) (k : enum_cio_timeout) (t : Int) :
    (0 < t → t ≤ 2147483 →
      cio_socket_get_timeout (cio_socket_set_timeout (some c) k t).2 k = t)
    ∧ (t ≤ 0 → cio_socket_get_timeout (cio_socket_set_timeout (some c) k t).2 k = 0) := by
  constructor
  · intro h0 h1
    have hw : wrap_int (t * 1000) = t * 1000 := wrap_int_of_small _ (by omega) (by omega)
    simp only [cio_socket_set_timeout, cio_socket_get_timeout, timeouts_get_set, gt_iff_lt, h0,
      if_true, hw]
    exact Int.mul_tdiv_cancel t (by decide)
  · intro h0
    have hn : ¬ (0 < t) := by omega
    simp only [cio_socket_set_timeout, cio_socket_get_timeout, timeouts_get_set, gt_iff_lt, hn,
      if_false]
    decide

theorem c1_timeout_roundtrip_witness :
    cio_socket_get_timeout
        (cio_socket_set_timeout (some cio_connected) .CIO_WRITE_TIMEOUT 30).2
        .CIO_WRITE_TIMEOUT = 30
    ∧ cio_socket_get_timeout
        (cio_socket_set_timeout (some cio_connected) .CIO_WRITE_TIMEOUT (-5)).2
        .CIO_WRITE_TIMEOUT = 0 :=
  ⟨(c1_timeout_roundtrip cio_connected .CIO_WRITE_TIMEOUT 30).1 (by decide) (by decide),
   (c1_timeout_roundtrip cio_connected .CIO_WRITE_TIMEOUT (-5)).2 (by decide)⟩

/-! ## Retry on interruption -/

/-- The `recv`/`send` retry loop on a script that starts with `N` interrupted
transfers followed by an outcome that is not an interruption. -/
theorem retry_xfer_skips_eintr (is_read : Bool) (fd : Int) (o : Outcome) (rest : List Outcome)
    (ho : ¬ (o.rc = -1 ∧ o.err = EINTR)) :
    ∀ (N fuel : Nat) (os : OS), N < fuel →
      os.xfers = List.replicate N ⟨-1, EINTR⟩ ++ o :: rest →
      retry_on_eintr (sys_xfer is_read fd) fuel os =
        some (o.rc, { os with
          xfers := rest
          errno := if o.rc = -1 then o.err else if N = 0 then os.errno else EINTR
          trace := os.trace ++
            List.replicate (N + 1) (if is_read then Call.recv fd else Call.send fd) }) := by
  intro N
  induction N with
  | zero =>
    intro fuel os hfuel hx
    obtain ⟨fuel, rfl⟩ : ∃ f, fuel = f + 1 := ⟨fuel - 1, by omega⟩
    simp only [List.replicate_zero, List.nil_append] at hx
    by_cases hrc : o.rc = -1
    · have he : o.err ≠ EINTR := fun h => ho ⟨hrc, h⟩
      simp [retry_on_eintr, sys_xfer, hx, OS.errno_after, hrc, he]
    · simp [retry_on_eintr, sys_xfer, hx, OS.errno_after, hrc]
  | succ N ih =>
    intro fuel os hfuel hx
    obtain ⟨fuel, rfl⟩ : ∃ f, fuel = f + 1 := ⟨fuel - 1, by omega⟩
    simp only [List.replicate_succ, List.cons_append] at hx
    have hstep := ih fuel
      { os with
        xfers := List.replicate N ⟨-1, EINTR⟩ ++ o :: rest
        errno := EINTR
        trace := os.trace ++ [if is_read then Call.recv fd else Call.send fd] }
      (by omega) rfl
    simp only [retry_on_eintr, sys_xfer, hx, OS.errno_after, and_self, if_true]
    rw [hstep]
    simp [List.replicate_succ]

theorem to_size_t_of_nonneg (r : Int) (h0 : 0 ≤ r) (h1 : r < 2 ^ 63) :
    to_size_t r = r.toNat := by
  unfold to_size_t
  congr 1
  omega

/-- C2: if the underlying `recv` (resp. `send`) fails with `EINTR` exactly `N`
times and then returns `r ≥ 0`, the synchronous read (resp. write) on a valid
transport returns `r`; the calls it made are exactly `N + 1` transfer attempts
(no entry into the wait primitive), whatever the configured timeouts. -/
theorem c2_eintr_retry_transparent (c : MARIADB_CIO) (csock : st_cio_socket) (os : OS)
    (N : Nat) (r e : Int) (rest : List Outcome)
    (hdata : c.data = some csock) (h0 : 0 ≤ r) (h1 : r < 2 ^ 63)
    (hx : os.xfers = List.replicate N ⟨-1, EINTR⟩ ++ ⟨r, e⟩ :: rest) :
    cio_socket_read (some c) os =
        some (r.toNat, { os with
          xfers := rest
          errno := if N = 0 then os.errno else EINTR
          trace := os.trace ++ List.replicate (N + 1) (Call.recv csock.socket) })
    ∧ cio_socket_write (some c) os =
        some (r.toNat, { os with
          xfers := rest
          errno := if N = 0 then os.errno else EINTR
          trace := os.trace ++ List.replicate (N + 1) (Call.send csock.socket) }) := by
  have hr : r ≠ -1 := by omega
  have hlen : N < os.xfers.length := by
    rw [hx]
    simp
  have hread := retry_xfer_skips_eintr true csock.socket ⟨r, e⟩ rest (fun h => hr h.1) N
    os.xfers.length os hlen hx
  have hwrite := retry_xfer_skips_eintr false csock.socket ⟨r, e⟩ rest (fun h => hr h.1) N
    os.xfers.length os hlen hx
  simp only [hr, if_false, if_true, Bool.false_eq_true] at hread hwrite
  constructor
  · simp only [cio_socket_read, hdata, hread, read_wait_loop, hr, false_and, if_false,
      to_size_t_of_nonneg r h0 h1]
  · simp only [cio_socket_write, hdata, hwrite, write_wait_loop, hr, false_and, if_false,
      to_size_t_of_nonneg r h0 h1]

theorem c2_eintr_retry_transparent_witness :
    cio_socket_read (some cio_connected)
        { os_idle with xfers := List.replicate 2 ⟨-1, EINTR⟩ ++ ⟨5, 0⟩ :: [] } =
        some ((5 : Int).toNat, { os_idle with
          xfers := []
          errno := if 2 = 0 then os_idle.errno else EINTR
          trace := os_idle.trace ++ List.replicate (2 + 1) (Call.recv 3) })
    ∧ cio_socket_write (some cio_connected)
        { os_idle with xfers := List.replicate 2 ⟨-1, EINTR⟩ ++ ⟨5, 0⟩ :: [] } =
        some ((5 : Int).toNat, { os_idle with
          xfers := []
          errno := if 2 = 0 then os_idle.errno else EINTR
          trace := os_idle.trace ++ List.replicate (2 + 1) (Call.send 3) }) :=
  c2_eintr_retry_transparent cio_connected { socket := 3, fcntl_mode := 0 }
    { os_idle with xfers := List.replicate 2 ⟨-1, EINTR⟩ ++ ⟨5, 0⟩ :: [] } 2 5 0 []
    rfl (by decide) (by decide) rfl

/-! ## Would-block and the wait primitive -/

/-- One entry into the wait primitive whose first poll does not fail, with
`errno` not left at `EINTR`: a single poll, whose return code is the result. -/
theorem wait_single_poll (c : MARIADB_CIO) (csock : st_cio_socket) (is_read : Bool) (T : Int)
    (os : OS) (o : Outcome) (rest : List Outcome) (hdata : c.data = some csock)
    (hp : os.polls = o :: rest) (hrc : o.rc ≠ -1) (herr : os.errno ≠ EINTR) :
    cio_socket_wait_io_or_timeout (some c) is_read T os =
      some (o.rc, { os with
        polls := rest
        errno := if o.rc = 0 then ETIMEDOUT else os.errno
        trace := os.trace ++ [Call.wait is_read T, Call.poll csock.socket is_read T] }) := by
  by_cases h0 : o.rc = 0 <;>
    simp [cio_socket_wait_io_or_timeout, hdata, hp, poll_loop, sys_poll, OS.errno_after, hrc,
      herr, h0]

theorem wait_timeouts_append (a b : List Call) :
    wait_timeouts (a ++ b) = wait_timeouts a ++ wait_timeouts b := by
  induction a with
  | nil => rfl
  | cons x a ih => cases x <;> simp [wait_timeouts, ih]

theorem sys_xfer_wait_timeouts (is_read : Bool) (fd : Int) (os os1 : OS) (r : Int)
    (h : sys_xfer is_read fd os = some (r, os1)) :
    wait_timeouts os1.trace = wait_timeouts os.trace := by
  unfold sys_xfer at h
  cases hx : os.xfers with
  | nil => simp [hx] at h
  | cons o rest =>
    simp only [hx, Option.some.injEq, Prod.mk.injEq] at h
    rw [← h.2]
    cases is_read <;> simp [wait_timeouts_append, wait_timeouts]

theorem retry_xfer_wait_timeouts (is_read : Bool) (fd : Int) :
    ∀ (fuel : Nat) (os os1 : OS) (r : Int),
      retry_on_eintr (sys_xfer is_read fd) fuel os = some (r, os1) →
      wait_timeouts os1.trace = wait_timeouts os.trace := by
  intro fuel
  induction fuel with
  | zero => intro os os1 r h; simp [retry_on_eintr] at h
  | succ fuel ih =>
    intro os os1 r h
    rw [retry_on_eintr] at h
    cases hs : sys_xfer is_read fd os with
    | none => simp [hs] at h
    | some res =>
      obtain ⟨r0, os0⟩ := res
      have h0 := sys_xfer_wait_timeouts is_read fd os os0 r0 hs
      simp only [hs] at h
      split at h
      · rw [ih os0 os1 r h, h0]
      · simp only [Option.some.injEq, Prod.mk.injEq] at h
        rw [← h.2, h0]

theorem poll_loop_wait_timeouts (fd : Int) (pollin : Bool) (timeout : Int) :
    ∀ (fuel : Nat) (os os1 : OS) (r : Int),
      poll_loop fd pollin timeout fuel os = some (r, os1) →
      wait_timeouts os1.trace = wait_timeouts os.trace := by
  intro fuel
  induction fuel with
  | zero => intro os os1 r h; simp [poll_loop] at h
  | succ fuel ih =>
    intro os os1 r h
    rw [poll_loop] at h
    unfold sys_poll at h
    cases hp : os.polls with
    | nil => simp [hp] at h
    | cons o rest =>
      simp only [hp] at h
      split at h
      · rw [ih _ os1 r h]
        simp [wait_timeouts_append, wait_timeouts]
      · simp only [Option.some.injEq, Prod.mk.injEq] at h
        rw [← h.2]
        simp [wait_timeouts_append, wait_timeouts]

/-- Every entry into the wait primitive is recorded with its timeout argument. -/
theorem wait_records_timeout (cio : Option MARIADB_CIO) (is_read : Bool) (timeout : Int)
    (os os1 : OS) (r : Int)
    (h : cio_socket_wait_io_or_timeout cio is_read timeout os = some (r, os1)) :
    wait_timeouts os1.trace = wait_timeouts os.trace ++ [timeout] := by
  unfold cio_socket_wait_io_or_timeout at h
  have hbase : wait_timeouts (os.trace ++ [Call.wait is_read timeout]) =
      wait_timeouts os.trace ++ [timeout] := by
    simp [wait_timeouts_append, wait_timeouts]
  cases cio with
  | none =>
    simp only [Option.some.injEq, Prod.mk.injEq] at h
    rw [← h.2]
    exact hbase
  | some c =>
    cases hd : c.data with
    | none =>
      simp only [hd, Option.some.injEq, Prod.mk.injEq] at h
      rw [← h.2]
      exact hbase
    | some csock =>
      simp only [hd] at h
      split at h
      · simp at h
      · rename_i rc os2 hpl
        have h2 := poll_loop_wait_timeouts _ _ _ _ _ _ _ hpl
        simp only [Option.some.injEq, Prod.mk.injEq] at h
        rw [← h.2]
        split
        · simpa [hbase] using h2
        · simpa [hbase] using h2

theorem read_wait_loop_wait_timeouts (c : MARIADB_CIO) (csock : st_cio_socket) :
    ∀ (fuel : Nat) (r : Int) (os os1 : OS) (res : Nat),
      read_wait_loop c csock fuel r os = some (res, os1) →
      ∃ k : Nat, wait_timeouts os1.trace =
        wait_timeouts os.trace ++ List.replicate k (c.timeout.get .CIO_READ_TIMEOUT) := by
  intro fuel
  induction fuel with
  | zero => intro r os os1 res h; simp [read_wait_loop] at h
  | succ fuel ih =>
    intro r os os1 res h
    rw [read_wait_loop] at h
    split at h
    · cases hw : cio_socket_wait_io_or_timeout (some c) true
          (c.timeout.get .CIO_READ_TIMEOUT) os with
      | none => simp [hw] at h
      | some wres =>
        obtain ⟨w, osw⟩ := wres
        have h1 := wait_records_timeout _ _ _ _ _ _ hw
        simp only [hw] at h
        split at h
        · simp only [Option.some.injEq, Prod.mk.injEq] at h
          exact ⟨1, by rw [← h.2, h1]; rfl⟩
        · cases hr : retry_on_eintr (sys_xfer true csock.socket) osw.xfers.length osw with
          | none => simp [hr] at h
          | some rres =>
            obtain ⟨r1, os2⟩ := rres
            have h2 := retry_xfer_wait_timeouts _ _ _ _ _ _ hr
            simp only [hr] at h
            obtain ⟨k, hk⟩ := ih r1 os2 os1 res h
            refine ⟨k + 1, ?_⟩
            rw [hk, h2, h1, List.append_assoc]
            rfl
    · simp only [Option.some.injEq, Prod.mk.injEq] at h
      exact ⟨0, by rw [← h.2]; simp⟩

theorem write_wait_loop_wait_timeouts (c : MARIADB_CIO) (csock : st_cio_socket) :
    ∀ (fuel : Nat) (r : Int) (os os1 : OS) (res : Nat),
      write_wait_loop c csock fuel r os = some (res, os1) →
      ∃ k : Nat, wait_timeouts os1.trace =
        wait_timeouts os.trace ++ List.replicate k (c.timeout.get .CIO_WRITE_TIMEOUT) := by
  intro fuel
  induction fuel with
  | zero => intro r os os1 res h; simp [write_wait_loop] at h
  | succ fuel ih =>
    intro r os os1 res h
    rw [write_wait_loop] at h
    split at h
    · cases hw : cio_socket_wait_io_or_timeout (some c) false
          (c.timeout.get .CIO_WRITE_TIMEOUT) os with
      | none => simp [hw] at h
      | some wres =>
        obtain ⟨w, osw⟩ := wres
        have h1 := wait_records_timeout _ _ _ _ _ _ hw
        simp only [hw] at h
        split at h
        · simp only [Option.some.injEq, Prod.mk.injEq] at h
          exact ⟨1, by rw [← h.2, h1]; rfl⟩
        · cases hr : retry_on_eintr (sys_xfer false csock.socket) osw.xfers.length osw with
          | none => simp [hr] at h
          | some rres =>
            obtain ⟨r1, os2⟩ := rres
            have h2 := retry_xfer_wait_timeouts _ _ _ _ _ _ hr
            simp only [hr] at h
            obtain ⟨k, hk⟩ := ih r1 os2 os1 res h
            refine ⟨k + 1, ?_⟩
            rw [hk, h2, h1, List.append_assoc]
            rfl
    · simp only [Option.some.injEq, Prod.mk.injEq] at h
      exact ⟨0, by rw [← h.2]; simp⟩

/-- C4 as stated fails: with a timeout of 1000 ms configured, a read (and a
write) whose transfer reports would-block twice enters the wait primitive twice
with the full 1000 ms each time, 2000 ms in total. -/
theorem c4_single_budget_counterexample :
    (cio_socket_read (some cio_one_second) os_two_wouldblocks).map
        (fun x => (x.1, wait_timeouts x.2.trace)) = some (5, [1000, 1000])
    ∧ (cio_socket_write (some cio_one_second) os_two_wouldblocks).map
        (fun x => (x.1, wait_timeouts x.2.trace)) = some (5, [1000, 1000])
    ∧ ¬ (([1000, 1000] : List Int).sum ≤ 1000) := by
  decide

/-- C4 (amended): every entry into the wait primitive made by one synchronous
read (resp. write) on a valid transport receives the full configured read
(resp. write) timeout as its argument, a fresh `T` for each would-block retry;
the arguments passed during the call therefore sum to `k * T` for the number
`k` of waits, and only each single wait is bounded by `T`. -/
theorem c4_each_wait_gets_full_timeout (c : MARIADB_CIO) (csock : st_cio_socket) (os os1 : OS)
    (res : Nat) (hdata : c.data = some csock) :
    (cio_socket_read (some c) os = some (res, os1) →
      ∃ k : Nat,
        wait_timeouts os1.trace =
          wait_timeouts os.trace ++ List.replicate k (c.timeout.get .CIO_READ_TIMEOUT)
        ∧ (wait_timeouts os1.trace).sum =
          (wait_timeouts os.trace).sum + k * c.timeout.get .CIO_READ_TIMEOUT)
    ∧ (cio_socket_write (some c) os = some (res, os1) →
      ∃ k : Nat,
        wait_timeouts os1.trace =
          wait_timeouts os.trace ++ List.replicate k (c.timeout.get .CIO_WRITE_TIMEOUT)
        ∧ (wait_timeouts os1.trace).sum =
          (wait_timeouts os.trace).sum + k * c.timeout.get .CIO_WRITE_TIMEOUT) := by
  constructor
  · intro h
    simp only [cio_socket_read, hdata] at h
    cases hr : retry_on_eintr (sys_xfer true csock.socket) os.xfers.length os with
    | none => simp [hr] at h
    | some rres =>
      obtain ⟨r1, os2⟩ := rres
      have h2 := retry_xfer_wait_timeouts _ _ _ _ _ _ hr
      simp only [hr] at h
      obtain ⟨k, hk⟩ := read_wait_loop_wait_timeouts c csock _ _ _ _ _ h
      refine ⟨k, by rw [hk, h2], ?_⟩
      rw [hk, h2, List.sum_append, List.sum_replicate]
      simp
  · intro h
    simp only [cio_socket_write, hdata] at h
    cases hr : retry_on_eintr (sys_xfer false csock.socket) os.xfers.length os with
    | none => simp [hr] at h
    | some rres =>
      obtain ⟨r1, os2⟩ := rres
      have h2 := retry_xfer_wait_timeouts _ _ _ _ _ _ hr
      simp only [hr] at h
      obtain ⟨k, hk⟩ := write_wait_loop_wait_timeouts c csock _ _ _ _ _ h
      refine ⟨k, by rw [hk, h2], ?_⟩
      rw [hk, h2, List.sum_append, List.sum_replicate]
      simp

theorem c4_each_wait_gets_full_timeout_witness :
    (∃ k : Nat,
      wait_timeouts
          [Call.recv 3, Call.wait true 1000, Call.poll 3 true 1000, Call.recv 3,
            Call.wait true 1000, Call.poll 3 true 1000, Call.recv 3] =
        wait_timeouts os_two_wouldblocks.trace ++
          List.replicate k (cio_one_second.timeout.get .CIO_READ_TIMEOUT)
      ∧ (wait_timeouts
          [Call.recv 3, Call.wait true 1000, Call.poll 3 true 1000, Call.recv 3,
            Call.wait true 1000, Call.poll 3 true 1000, Call.recv 3]).sum =
        (wait_timeouts os_two_wouldblocks.trace).sum +
          k * cio_one_second.timeout.get .CIO_READ_TIMEOUT)
    ∧ (∃ k : Nat,
      wait_timeouts
          [Call.send 3, Call.wait false 1000, Call.poll 3 false 1000, Call.send 3,
            Call.wait false 1000, Call.poll 3 false 1000, Call.send 3] =
        wait_timeouts os_two_wouldblocks.trace ++
          List.replicate k (cio_one_second.timeout.get .CIO_WRITE_TIMEOUT)
      ∧ (wait_timeouts
          [Call.send 3, Call.wait false 1000, Call.poll 3 false 1000, Call.send 3,
            Call.wait false 1000, Call.poll 3 false 1000, Call.send 3]).sum =
        (wait_timeouts os_two_wouldblocks.trace).sum +
          k * cio_one_second.timeout.get .CIO_WRITE_TIMEOUT) :=
  ⟨(c4_each_wait_gets_full_timeout cio_one_second { socket := 3, fcntl_mode := 0 }
      os_two_wouldblocks
      { os_idle with
        errno := EAGAIN
        trace := [Call.recv 3, Call.wait true 1000, Call.poll 3 true 1000, Call.recv 3,
          Call.wait true 1000, Call.poll 3 true 1000, Call.recv 3] }
      5 rfl).1 (by decide),
   (c4_each_wait_gets_full_timeout cio_one_second { socket := 3, fcntl_mode := 0 }
      os_two_wouldblocks
      { os_idle with
        errno := EAGAIN
        trace := [Call.send 3, Call.wait false 1000, Call.poll 3 false 1000, Call.send 3,
          Call.wait false 1000, Call.poll 3 false 1000, Call.send 3] }
      5 rfl).2 (by decide)⟩

/-! ## Read and write with no timeout configured -/

/-- C5 (evaluation at the failing input): with the read and write timeout at
the sentinel -1 and a transfer that reports would-block once, the synchronous
read returns `(size_t)-1` after its single `recv`, without entering the wait
primitive, while the synchronous write waits with timeout -1 and then returns
the 5 bytes of the retried `send`. -/
theorem c5_read_returns_where_write_waits :
    cio_socket_read (some cio_connected) os_one_wouldblock =
        some (to_size_t (-1), { os_one_wouldblock with
          xfers := [⟨5, 0⟩], errno := EAGAIN, trace := [Call.recv 3] })
    ∧ cio_socket_write (some cio_connected) os_one_wouldblock =
        some (5, { os_idle with
          errno := EAGAIN
          trace := [Call.send 3, Call.wait false (-1), Call.poll 3 false (-1), Call.send 3] }) := by
  decide

/-! ## Wait primitive: the poll loop -/

/-- C6 (evaluation at the failing inputs): a poll that fails with `EBADF` is
not returned as a negative result, the loop polls again and returns the next
outcome; and after a poll that failed with `EINTR`, a poll that reports ready
is followed by further polls, because `errno` still holds `EINTR`. -/
theorem c6_poll_loop_repeats_on_any_failure :
    cio_socket_wait_io_or_timeout (some cio_connected) true 1000
        { os_idle with polls := [⟨-1, EBADF⟩, ⟨1, 0⟩] } =
      some (1, { os_idle with
        errno := EBADF
        trace := [Call.wait true 1000, Call.poll 3 true 1000, Call.poll 3 true 1000] })
    ∧ cio_socket_wait_io_or_timeout (some cio_connected) true 1000
        { os_idle with polls := [⟨-1, EINTR⟩, ⟨1, 0⟩, ⟨-1, EBADF⟩, ⟨1, 0⟩] } =
      some (1, { os_idle with
        errno := EBADF
        trace := [Call.wait true 1000, Call.poll 3 true 1000, Call.poll 3 true 1000,
          Call.poll 3 true 1000, Call.poll 3 true 1000] }) := by
  decide

/-! ## Blocking mode controller -/

/-- C7 (evaluation at the failing input): on a transport in blocking mode,
`cio_socket_blocking(cio, 0, &previous)` with a successful `fcntl` reports
`previous = 0` although `cio_socket_is_blocking` was 1 before the call, and
setting the mode back to the reported value leaves the socket non-blocking. -/
theorem c7_previous_mode_is_inverted :
    cio_socket_is_blocking (some cio_connected) = true
    ∧ (cio_socket_blocking (some cio_connected) false
        { os_idle with fcntls := [⟨0, 0⟩] }).map (fun x => (x.1, x.2.1)) =
      some (0, some false)
    ∧ toggle_off_and_restore (some cio_connected) { os_idle with fcntls := [⟨0, 0⟩, ⟨0, 0⟩] } =
      some (false, false) := by
  decide

theorem and_not_nonblock (f : Nat) : (f &&& bit_not32 O_NONBLOCK) &&& O_NONBLOCK = 0 := by
  apply Nat.eq_of_testBit_eq
  intro i
  simp only [Nat.testBit_and, bit_not32, Nat.testBit_xor, O_NONBLOCK, Nat.testBit_two_pow,
    Nat.testBit_two_pow_sub_one, Nat.zero_testBit]
  by_cases h : 11 = i
  · subst h
    simp
  · simp [h]

theorem or_nonblock (f : Nat) : (f ||| O_NONBLOCK) &&& O_NONBLOCK ≠ 0 := by
  intro h
  have h11 := congrArg (fun n => n.testBit 11) h
  have e : Nat.testBit 2048 11 = true := by decide
  simp [Nat.testBit_and, Nat.testBit_or, O_NONBLOCK, e] at h11

theorem to_my_bool_of_errno (e : Int) (h0 : 0 < e) (h1 : e ≤ 127) : to_my_bool e = e := by
  unfold to_my_bool
  omega

/-- The result of the body of `cio_socket_blocking` in terms of the outcome of
its `fcntl` call. -/
theorem set_blocking_eq (csock : st_cio_socket) (block : Bool) (os : OS) (o : Outcome)
    (rest : List Outcome) (hf : os.fcntls = o :: rest) :
    set_blocking csock block os =
      some (if o.rc = -1 then to_my_bool o.err else 0,
        decide (csock.fcntl_mode &&& O_NONBLOCK ≠ 0),
        { csock with
          fcntl_mode :=
            if o.rc = -1 then csock.fcntl_mode
            else if block then csock.fcntl_mode &&& bit_not32 O_NONBLOCK
            else csock.fcntl_mode ||| O_NONBLOCK },
        { os with
          fcntls := rest
          errno := os.errno_after o
          trace := os.trace ++ [Call.fcntl csock.socket
            (if block then csock.fcntl_mode &&& bit_not32 O_NONBLOCK
             else csock.fcntl_mode ||| O_NONBLOCK)] }) := by
  by_cases h : o.rc = -1 <;> simp [set_blocking, sys_fcntl, hf, h, OS.errno_after]

theorem to_my_bool_ne_zero (e : Int) (h0 : 0 < e) (h1 : e ≤ 255) : to_my_bool e ≠ 0 := by
  unfold to_my_bool
  omega

/-- C8: on a valid transport, for every desired mode, `cio_socket_blocking`
passes to `fcntl(F_SETFL)` the flag word with `O_NONBLOCK` cleared (blocking
desired) or set (otherwise).  If that call succeeds, the function returns 0,
the cached `fcntl_mode` is exactly the flag word that was applied, and
`cio_socket_is_blocking` equals `desired`.  If it fails, the transport (and with
it the cached `fcntl_mode`) is exactly as before the call and the return value
is `errno` converted to `my_bool`: non-zero for every `errno` in 1..255 and the
platform error code itself for every code that fits a `char` (1..127). -/
theorem c8_cached_flag_tracks_applied_mode (c : MARIADB_CIO) (csock : st_cio_socket)
    (block : Bool) (os : OS) (o : Outcome) (rest : List Outcome)
    (hdata : c.data = some csock) (hf : os.fcntls = o :: rest) :
    (o.rc ≠ -1 →
      cio_socket_blocking (some c) block os =
        some (0, some (decide (csock.fcntl_mode &&& O_NONBLOCK ≠ 0)),
          some { c with data := some { csock with
            fcntl_mode :=
              if block then csock.fcntl_mode &&& bit_not32 O_NONBLOCK
              else csock.fcntl_mode ||| O_NONBLOCK } },
          { os with
            fcntls := rest
            trace := os.trace ++ [Call.fcntl csock.socket
              (if block then csock.fcntl_mode &&& bit_not32 O_NONBLOCK
               else csock.fcntl_mode ||| O_NONBLOCK)] })
      ∧ cio_socket_is_blocking
          (some { c with data := some { csock with
            fcntl_mode :=
              if block then csock.fcntl_mode &&& bit_not32 O_NONBLOCK
              else csock.fcntl_mode ||| O_NONBLOCK } }) = block)
    ∧ (o.rc = -1 →
      cio_socket_blocking (some c) block os =
        some (to_my_bool o.err, some (decide (csock.fcntl_mode &&& O_NONBLOCK ≠ 0)), some c,
          { os with
            fcntls := rest
            errno := o.err
            trace := os.trace ++ [Call.fcntl csock.socket
              (if block then csock.fcntl_mode &&& bit_not32 O_NONBLOCK
               else csock.fcntl_mode ||| O_NONBLOCK)] }))
    ∧ (o.rc = -1 → 0 < o.err → o.err ≤ 255 →
      (cio_socket_blocking (some c) block os).map (fun x => x.1) ≠ some 0)
    ∧ (o.rc = -1 → 0 < o.err → o.err ≤ 127 →
      (cio_socket_blocking (some c) block os).map (fun x => x.1) = some o.err) := by
  obtain ⟨data, timeout, mysql_set, type⟩ := c
  simp only at hdata
  subst hdata
  obtain ⟨errno, xfers, polls, fcntls, sockets, binds, connects, gso, asyncs, resolves,
    malloc_ok, open_fds, trace⟩ := os
  simp only at hf
  subst hf
  have hfail : o.rc = -1 →
      cio_socket_blocking
          (some { data := some csock, timeout := timeout, mysql_set := mysql_set, type := type })
          block
          { errno := errno, xfers := xfers, polls := polls, fcntls := o :: rest,
            sockets := sockets, binds := binds, connects := connects, getsockopts := gso,
            asyncs := asyncs, resolves := resolves, malloc_ok := malloc_ok,
            open_fds := open_fds, trace := trace } =
        some (to_my_bool o.err, some (decide (csock.fcntl_mode &&& O_NONBLOCK ≠ 0)),
          some { data := some csock, timeout := timeout, mysql_set := mysql_set, type := type },
          { errno := o.err, xfers := xfers, polls := polls, fcntls := rest,
            sockets := sockets, binds := binds, connects := connects, getsockopts := gso,
            asyncs := asyncs, resolves := resolves, malloc_ok := malloc_ok,
            open_fds := open_fds,
            trace := trace ++ [Call.fcntl csock.socket
              (if block then csock.fcntl_mode &&& bit_not32 O_NONBLOCK
               else csock.fcntl_mode ||| O_NONBLOCK)] }) := by
    intro hrc
    simp only [cio_socket_blocking]
    rw [set_blocking_eq csock block _ o rest rfl]
    simp [hrc, OS.errno_after]
  refine ⟨?_, hfail, ?_, ?_⟩
  · intro hrc
    constructor
    · simp only [cio_socket_blocking]
      rw [set_blocking_eq csock block _ o rest rfl]
      simp [hrc, OS.errno_after]
    · cases block with
      | true => simp [cio_socket_is_blocking, and_not_nonblock]
      | false => simp [cio_socket_is_blocking, or_nonblock]
  · intro hrc h0 h1
    rw [hfail hrc]
    simpa using to_my_bool_ne_zero o.err h0 h1
  · intro hrc h0 h1
    rw [hfail hrc]
    simpa using to_my_bool_of_errno o.err h0 h1

theorem c8_cached_flag_tracks_applied_mode_witness :
    (cio_socket_blocking (some cio_connected) false { os_idle with fcntls := [⟨0, 0⟩] } =
        some (0, some false,
          some { cio_connected with data := some { socket := 3, fcntl_mode := O_NONBLOCK } },
          { os_idle with trace := [Call.fcntl 3 O_NONBLOCK] })
      ∧ cio_socket_is_blocking
          (some { cio_connected with data := some { socket := 3, fcntl_mode := O_NONBLOCK } }) =
        false)
    ∧ cio_socket_blocking (some cio_connected) false { os_idle with fcntls := [⟨-1, EBADF⟩] } =
        some (to_my_bool EBADF, some false, some cio_connected,
          { os_idle with errno := EBADF, trace := [Call.fcntl 3 O_NONBLOCK] })
    ∧ (cio_socket_blocking (some cio_connected) false
        { os_idle with fcntls := [⟨-1, EBADF⟩] }).map (fun x => x.1) ≠ some 0
    ∧ (cio_socket_blocking (some cio_connected) false
        { os_idle with fcntls := [⟨-1, EBADF⟩] }).map (fun x => x.1) = some EBADF :=
  ⟨(c8_cached_flag_tracks_applied_mode cio_connected { socket := 3, fcntl_mode := 0 } false
      { os_idle with fcntls := [⟨0, 0⟩] } ⟨0, 0⟩ [] rfl rfl).1 (by decide),
   (c8_cached_flag_tracks_applied_mode cio_connected { socket := 3, fcntl_mode := 0 } false
      { os_idle with fcntls := [⟨-1, EBADF⟩] } ⟨-1, EBADF⟩ [] rfl rfl).2.1 rfl,
   (c8_cached_flag_tracks_applied_mode cio_connected { socket := 3, fcntl_mode := 0 } false
      { os_idle with fcntls := [⟨-1, EBADF⟩] } ⟨-1, EBADF⟩ [] rfl rfl).2.2.1 rfl (by decide)
      (by decide),
   (c8_cached_flag_tracks_applied_mode cio_connected { socket := 3, fcntl_mode := 0 } false
      { os_idle with fcntls := [⟨-1, EBADF⟩] } ⟨-1, EBADF⟩ [] rfl rfl).2.2.2 rfl (by decide)
      (by decide)⟩

/-! ## Connect engine -/

/-- C9 (evaluation at the failing input): for a host with two candidates whose
sockets are created and whose `connect` calls are both refused,
`cio_socket_connect` returns 1, reports `CR_CONN_HOST_ERROR` with the `errno`
of the last `connect` and releases `cio->data`, but it never calls
`closesocket`: descriptors 3 and 4 are still open when it returns. -/
theorem c9_failed_candidates_leave_sockets_open :
    (cio_socket_connect (some cio_fresh) (some cinfo_tcp) mysql_plain os_all_refused).map
        (fun x => (x.1, x.2.1.map (fun c => c.data), x.2.2.1.last_error, x.2.2.2.open_fds)) =
      some (1, some none, some (.CR_CONN_HOST_ERROR, ECONNREFUSED), [4, 3])
    ∧ (cio_socket_connect (some cio_fresh) (some cinfo_tcp) mysql_plain os_all_refused).map
        (fun x => x.2.2.2.trace) =
      some [Call.socket (candidate 1), Call.fcntl 3 2048, Call.connect 3 1,
        Call.socket (candidate 2), Call.fcntl 4 2048, Call.connect 4 2, Call.my_free] :=
  ⟨rfl, rfl⟩

/-- Candidates whose `socket()` call fails are passed over by the connect loop:
nothing but the `socket()` calls happens for them. -/
theorem connect_loop_skips_failed_sockets (mysql : MYSQL) (c : MARIADB_CIO)
    (post : List addrinfo) (rs : List Outcome) (rc : Int) :
    ∀ (pre : List addrinfo) (fails : List Outcome) (csock : st_cio_socket) (os : OS),
      fails.length = pre.length → (∀ o ∈ fails, o.rc = -1) → os.sockets = fails ++ rs →
      ∃ (s1 errno1 : Int),
        connect_loop mysql c [] (pre ++ post) csock rc [] os =
          connect_loop mysql c [] post { csock with socket := s1 } rc []
            { os with
              sockets := rs
              errno := errno1
              trace := os.trace ++ pre.map Call.socket } := by
  intro pre
  induction pre with
  | nil =>
    intro fails csock os hlen _ hs
    obtain ⟨errno, xfers, polls, fcntls, sockets, binds, connects, gso, asyncs, resolves,
      malloc_ok, open_fds, trace⟩ := os
    have hnil : fails = [] := List.length_eq_zero.mp hlen
    subst hnil
    simp only [List.nil_append] at hs
    subst hs
    exact ⟨csock.socket, errno, by simp⟩
  | cons a pre ih =>
    intro fails csock os hlen hfail hs
    obtain ⟨errno, xfers, polls, fcntls, sockets, binds, connects, gso, asyncs, resolves,
      malloc_ok, open_fds, trace⟩ := os
    cases fails with
    | nil => simp at hlen
    | cons f fails =>
      simp only [List.cons_append] at hs
      subst hs
      have hf : f.rc = -1 := hfail f (List.mem_cons_self _ _)
      obtain ⟨s1, errno1, h⟩ := ih fails { csock with socket := -1 }
        { errno := f.err, xfers := xfers, polls := polls, fcntls := fcntls,
          sockets := fails ++ rs, binds := binds, connects := connects, getsockopts := gso,
          asyncs := asyncs, resolves := resolves, malloc_ok := malloc_ok, open_fds := open_fds,
          trace := trace ++ [Call.socket a] }
        (by simpa using hlen) (fun o ho => hfail o (List.mem_cons_of_mem _ ho)) rfl
      refine ⟨s1, errno1, ?_⟩
      rw [List.cons_append, connect_loop]
      simp only [sys_socket, hf, OS.errno_after, SOCKET_ERROR, if_true]
      rw [h]
      simp

/-- The `connect` retry loop on a script that starts with `N` interrupted calls
followed by an outcome that is not an interruption. -/
theorem retry_connect_skips_eintr (fd : Int) (addr : Nat) (o : Outcome) (rest : List Outcome)
    (ho : ¬ (o.rc = -1 ∧ o.err = EINTR)) :
    ∀ (N fuel : Nat) (os : OS), N < fuel →
      os.connects = List.replicate N ⟨-1, EINTR⟩ ++ o :: rest →
      retry_on_eintr (sys_connect fd addr) fuel os =
        some (o.rc, { os with
          connects := rest
          errno := if o.rc = -1 then o.err else if N = 0 then os.errno else EINTR
          trace := os.trace ++ List.replicate (N + 1) (Call.connect fd addr) }) := by
  intro N
  induction N with
  | zero =>
    intro fuel os hfuel hx
    obtain ⟨fuel, rfl⟩ : ∃ f, fuel = f + 1 := ⟨fuel - 1, by omega⟩
    simp only [List.replicate_zero, List.nil_append] at hx
    by_cases hrc : o.rc = -1
    · have he : o.err ≠ EINTR := fun h => ho ⟨hrc, h⟩
      simp [retry_on_eintr, sys_connect, hx, OS.errno_after, hrc, he]
    · simp [retry_on_eintr, sys_connect, hx, OS.errno_after, hrc]
  | succ N ih =>
    intro fuel os hfuel hx
    obtain ⟨fuel, rfl⟩ : ∃ f, fuel = f + 1 := ⟨fuel - 1, by omega⟩
    simp only [List.replicate_succ, List.cons_append] at hx
    have hstep := ih fuel
      { os with
        connects := List.replicate N ⟨-1, EINTR⟩ ++ o :: rest
        errno := EINTR
        trace := os.trace ++ [Call.connect fd addr] }
      (by omega) rfl
    simp only [retry_on_eintr, sys_connect, hx, OS.errno_after, and_self, if_true]
    rw [hstep]
    simp [List.replicate_succ]

/-- The connect step on the synchronous path when `connect` returns 0, after
`j` interrupted calls. -/
theorem connect_step_immediate (mysql : MYSQL) (c : MARIADB_CIO) (csock : st_cio_socket)
    (addr : Nat) (os : OS) (f1 : Outcome) (rf rcn : List Outcome) (j : Nat) (e2 : Int)
    (hasync : mysql.async_active = false) (hfc : os.fcntls = f1 :: rf)
    (hc : os.connects = List.replicate j ⟨-1, EINTR⟩ ++ ⟨0, e2⟩ :: rcn) :
    ∃ (csock2 : st_cio_socket) (os3 : OS),
      cio_socket_connect_sync_or_async mysql c csock addr os = some (0, csock2, os3)
      ∧ csock2.socket = csock.socket ∧ os3.fcntls = rf ∧ os3.open_fds = os.open_fds
      ∧ os3.trace = os.trace ++
          (Call.fcntl csock.socket (csock.fcntl_mode ||| O_NONBLOCK) ::
            List.replicate (j + 1) (Call.connect csock.socket addr)) := by
  obtain ⟨errno, xfers, polls, fcntls, sockets, binds, connects, gso, asyncs, resolves,
    malloc_ok, open_fds, trace⟩ := os
  simp only at hfc hc
  subst hfc hc
  simp only [cio_socket_connect_sync_or_async, hasync, Bool.false_eq_true, if_false,
    cio_socket_internal_connect]
  rw [set_blocking_eq csock false _ f1 rf rfl]
  simp only []
  rw [retry_connect_skips_eintr csock.socket addr (Outcome.mk 0 e2) rcn (by simp) j _ _
    (by simp) rfl]
  simp
  exact ⟨_, _, ⟨rfl, rfl⟩, rfl, rfl, rfl, rfl⟩

/-- The connect step on the synchronous path when `connect` reports that the
connection is in progress, a connect timeout is configured, the wait reports
ready and the pending error of the socket is 0. -/
theorem connect_step_in_progress (mysql : MYSQL) (c : MARIADB_CIO) (csock : st_cio_socket)
    (addr : Nat) (os : OS) (f1 : Outcome) (rf rcn rp : List Outcome) (j : Nat)
    (ep p pe ge : Int) (rg : List (Outcome × Int))
    (hasync : mysql.async_active = false) (hfc : os.fcntls = f1 :: rf)
    (hc : os.connects = List.replicate j ⟨-1, EINTR⟩ ++ ⟨-1, ep⟩ :: rcn)
    (hep : ep = EINPROGRESS ∨ ep = EAGAIN)
    (hT : c.timeout.get .CIO_CONNECT_TIMEOUT ≠ 0)
    (hp : os.polls = ⟨p, pe⟩ :: rp) (hp0 : 0 < p)
    (hg : os.getsockopts = (⟨0, ge⟩, 0) :: rg) :
    ∃ (csock2 : st_cio_socket) (os3 : OS),
      cio_socket_connect_sync_or_async mysql c csock addr os = some (0, csock2, os3)
      ∧ csock2.socket = csock.socket ∧ os3.fcntls = rf ∧ os3.open_fds = os.open_fds
      ∧ os3.trace = os.trace ++
          (Call.fcntl csock.socket (csock.fcntl_mode ||| O_NONBLOCK) ::
            List.replicate (j + 1) (Call.connect csock.socket addr) ++
            [Call.wait false (c.timeout.get .CIO_CONNECT_TIMEOUT),
              Call.poll csock.socket false (c.timeout.get .CIO_CONNECT_TIMEOUT),
              Call.getsockopt csock.socket]) := by
  obtain ⟨errno, xfers, polls, fcntls, sockets, binds, connects, gso, asyncs, resolves,
    malloc_ok, open_fds, trace⟩ := os
  simp only at hfc hc hp hg
  subst hfc hc hp hg
  have hne : ep ≠ EINTR := by
    rcases hep with h | h <;> rw [h] <;> decide
  have hp1 : ¬ p < 1 := by omega
  have hp2 : p ≠ 0 := by omega
  simp only [cio_socket_connect_sync_or_async, hasync, Bool.false_eq_true, if_false,
    cio_socket_internal_connect]
  rw [set_blocking_eq csock false _ f1 rf rfl]
  simp only []
  rw [retry_connect_skips_eintr csock.socket addr (Outcome.mk (-1) ep) rcn
    (by simp [hne]) j _ _ (by simp) rfl]
  simp only [hT, ne_eq, not_false_eq_true, hep, and_self, if_true]
  rw [wait_single_poll _ _ false _ _ (Outcome.mk p pe) rp rfl rfl (by simp; omega)
    (by simpa using hne)]
  simp [hp1, hp2, sys_getsockopt, OS.errno_after]
  exact ⟨_, _, ⟨rfl, rfl⟩, rfl, rfl, rfl, rfl⟩

/-- The connect step when the scheduler is active and `my_connect_async`
returns 0. -/
theorem connect_step_async (mysql : MYSQL) (c : MARIADB_CIO) (csock : st_cio_socket)
    (addr : Nat) (os : OS) (f1 : Outcome) (rf : List Outcome) (ra : List Int)
    (hasync : mysql.async_active = true) (hfc : os.fcntls = f1 :: rf)
    (ha : os.asyncs = 0 :: ra) :
    ∃ (csock2 : st_cio_socket) (os3 : OS),
      cio_socket_connect_sync_or_async mysql c csock addr os = some (0, csock2, os3)
      ∧ csock2.socket = csock.socket ∧ os3.fcntls = rf ∧ os3.open_fds = os.open_fds
      ∧ os3.trace = os.trace ++
          [Call.fcntl csock.socket (csock.fcntl_mode ||| O_NONBLOCK),
            Call.connect_async csock.socket addr (c.timeout.get .CIO_CONNECT_TIMEOUT)] := by
  obtain ⟨errno, xfers, polls, fcntls, sockets, binds, connects, gso, asyncs, resolves,
    malloc_ok, open_fds, trace⟩ := os
  simp only at hfc ha
  subst hfc ha
  simp only [cio_socket_connect_sync_or_async, hasync, if_true]
  rw [set_blocking_eq csock false _ f1 rf rfl]
  simp [my_connect_async]
  exact ⟨_, _, ⟨rfl, rfl⟩, rfl, rfl, rfl, rfl⟩

/-- The network branch of `cio_socket_connect` when `socket()` fails for the
candidates `pre`, succeeds with descriptor `s` for `cand`, and the connect step
on `s` returns 0 having made the calls `mid`. -/
theorem connect_succeeds_given_step (c : MARIADB_CIO) (ci : MA_CIO_CINFO) (mysql : MYSQL)
    (os : OS) (pre post bl : List addrinfo) (cand : addrinfo) (fails rs rf : List Outcome)
    (s e : Int) (f2 : Outcome) (rr : List (Int × List addrinfo)) (mid : List Call)
    (htype : ci.type = some .CIO_TYPE_SOCKET) (hmalloc : os.malloc_ok = true)
    (hres : os.resolves =
      (if mysql.bind_address.isSome then [(0, bl)] else []) ++ (0, pre ++ cand :: post) :: rr)
    (hlen : fails.length = pre.length) (hfail : ∀ o ∈ fails, o.rc = -1)
    (hsock : os.sockets = fails ++ ⟨s, e⟩ :: rs) (hs : s ≠ -1)
    (hf2 : f2.rc = -1 → to_my_bool f2.err ≠ SOCKET_ERROR)
    (hstep : ∀ errno1 : Int, ∃ (csock2 : st_cio_socket) (os3 : OS),
      cio_socket_connect_sync_or_async mysql
          { c with
            data := some { socket := -1, fcntl_mode := 0 }, mysql_set := true,
            type := some .CIO_TYPE_SOCKET }
          { socket := s, fcntl_mode := 0 } cand.ai_addr
          { os with
            errno := errno1
            resolves := rr
            sockets := rs
            open_fds := s :: os.open_fds
            trace := os.trace ++ pre.map Call.socket ++ [Call.socket cand] } =
        some (0, csock2, os3)
      ∧ csock2.socket = s ∧ os3.fcntls = f2 :: rf ∧ os3.open_fds = s :: os.open_fds
      ∧ os3.trace = os.trace ++ pre.map Call.socket ++ [Call.socket cand] ++ mid) :
    ∃ (csock1 : st_cio_socket) (os1 : OS) (fl2 : Nat),
      cio_socket_connect (some c) (some ci) mysql os =
        some (0, some { c with data := some csock1, mysql_set := true, type := ci.type },
          mysql, os1)
      ∧ csock1.socket = s
      ∧ os1.open_fds = s :: os.open_fds
      ∧ os1.trace = os.trace ++ (pre ++ [cand]).map Call.socket ++ mid ++ [Call.fcntl s fl2] := by
  obtain ⟨errno, xfers, polls, fcntls, sockets, binds, connects, gso, asyncs, resolves,
    malloc_ok, open_fds, trace⟩ := os
  obtain ⟨type, host, port, unix_socket⟩ := ci
  simp only at hmalloc hres hsock htype hstep
  subst hmalloc hsock htype
  have hb : ¬ ((if f2.rc = -1 then to_my_bool f2.err else 0) = -1) := by
    by_cases h : f2.rc = -1
    · simpa [h, SOCKET_ERROR] using hf2 h
    · simp [h]
  obtain ⟨s1, errno1, hskip⟩ := connect_loop_skips_failed_sockets mysql
    { c with
      data := some { socket := -1, fcntl_mode := 0 }, mysql_set := true,
      type := some .CIO_TYPE_SOCKET }
    (cand :: post) (⟨s, e⟩ :: rs) 0 pre fails { socket := -1, fcntl_mode := 0 }
    { errno := errno, xfers := xfers, polls := polls, fcntls := fcntls,
      sockets := fails ++ ⟨s, e⟩ :: rs, binds := binds, connects := connects,
      getsockopts := gso, asyncs := asyncs, resolves := rr, malloc_ok := true,
      open_fds := open_fds, trace := trace }
    hlen hfail rfl
  simp only at hskip
  obtain ⟨csock2, os3, hst, h1, h2, h3, h4⟩ := hstep errno1
  have hloop : connect_loop mysql
      { c with
        data := some { socket := -1, fcntl_mode := 0 }, mysql_set := true,
        type := some .CIO_TYPE_SOCKET }
      [] (pre ++ cand :: post) { socket := -1, fcntl_mode := 0 } 0 []
      { errno := errno, xfers := xfers, polls := polls, fcntls := fcntls,
        sockets := fails ++ ⟨s, e⟩ :: rs, binds := binds, connects := connects,
        getsockopts := gso, asyncs := asyncs, resolves := rr, malloc_ok := true,
        open_fds := open_fds, trace := trace } =
      some ({ csock2 with
          fcntl_mode :=
            if f2.rc = -1 then csock2.fcntl_mode
            else csock2.fcntl_mode &&& bit_not32 O_NONBLOCK },
        0,
        { os3 with
          fcntls := rf
          errno := os3.errno_after f2
          trace := os3.trace ++
            [Call.fcntl csock2.socket (csock2.fcntl_mode &&& bit_not32 O_NONBLOCK)] }) := by
    rw [hskip, connect_loop]
    simp only [sys_socket, hs, SOCKET_ERROR, if_false, ne_eq, not_true_eq_false, false_and,
      OS.errno_after]
    rw [hst]
    simp only [if_true]
    rw [set_blocking_eq csock2 true os3 f2 rf h2]
    simp [hb, OS.errno_after]
  have hfin : ∀ resolves0 : List (Int × List addrinfo),
      resolves0 = (if mysql.bind_address.isSome then [(0, bl)] else []) ++
        (0, pre ++ cand :: post) :: rr →
      connect_network
          { c with
            data := some { socket := -1, fcntl_mode := 0 }, mysql_set := true,
            type := some .CIO_TYPE_SOCKET }
          { socket := -1, fcntl_mode := 0 } mysql
          { errno := errno, xfers := xfers, polls := polls, fcntls := fcntls,
            sockets := fails ++ ⟨s, e⟩ :: rs, binds := binds, connects := connects,
            getsockopts := gso, asyncs := asyncs, resolves := resolves0, malloc_ok := true,
            open_fds := open_fds, trace := trace } =
        some (0,
          some { c with
            data := some { csock2 with
              fcntl_mode :=
                if f2.rc = -1 then csock2.fcntl_mode
                else csock2.fcntl_mode &&& bit_not32 O_NONBLOCK },
            mysql_set := true, type := some .CIO_TYPE_SOCKET },
          mysql,
          { os3 with
            fcntls := rf
            errno := os3.errno_after f2
            trace := os3.trace ++
              [Call.fcntl csock2.socket (csock2.fcntl_mode &&& bit_not32 O_NONBLOCK)] }) := by
    intro resolves0 hr
    cases hba : mysql.bind_address with
    | none =>
      simp only [hba, Option.isSome_none, Bool.false_eq_true, if_false, List.nil_append] at hr
      subst hr
      simp only [connect_network, hba, Option.isSome_none, sys_getaddrinfo, Bool.false_eq_true,
        if_false, ne_eq, not_true_eq_false]
      rw [hloop]
      simp [h1, hs, SOCKET_ERROR]
    | some b =>
      simp only [hba, Option.isSome_some, if_true, List.singleton_append] at hr
      subst hr
      simp only [connect_network, hba, Option.isSome_some, sys_getaddrinfo, if_true, ne_eq,
        not_true_eq_false, if_false]
      rw [hloop]
      simp [h1, hs, SOCKET_ERROR]
  refine ⟨{ csock2 with
      fcntl_mode :=
        if f2.rc = -1 then csock2.fcntl_mode
        else csock2.fcntl_mode &&& bit_not32 O_NONBLOCK },
    { os3 with
      fcntls := rf
      errno := os3.errno_after f2
      trace := os3.trace ++
        [Call.fcntl csock2.socket (csock2.fcntl_mode &&& bit_not32 O_NONBLOCK)] },
    csock2.fcntl_mode &&& bit_not32 O_NONBLOCK, ?_, ?_, ?_, ?_⟩
  · simp only [cio_socket_connect, Bool.true_eq_false, if_false]
    exact hfin resolves hres
  · exact h1
  · exact h3
  · simp [h4, h1]

/-- C10: for a network target whose host resolves to the candidates
`pre ++ cand :: post` (so `N = pre.length + 1 + post.length` and
`k = pre.length < N`), with or without a bind address: if `socket()` fails for
the first `k` candidates and succeeds with descriptor `s` for the next one,
whose connect succeeds, then `cio_socket_connect` returns 0 with `s` as the
transport's handle; its calls are exactly one `socket()` per candidate of
`pre ++ [cand]` in resolver order, the mode change, the connect on `cand` and
the mode restore on `s`; the only descriptor it leaves open is `s`.  The
connect succeeds in one of three ways: `connect()` returns 0; or `connect()`
reports in-progress with a connect timeout configured, the wait reports ready
and the pending socket error is 0; or the active scheduler's
`my_connect_async` returns 0.  A `connect()` interrupted by `EINTR` (`j` times)
is repeated on the same candidate; with `j = 0` exactly one `connect()` is
issued. -/
theorem c10_first_creatable_candidate_connects (c : MARIADB_CIO) (ci : MA_CIO_CINFO)
    (mysql : MYSQL) (os : OS) (pre post bl : List addrinfo) (cand : addrinfo)
    (fails rs rf : List Outcome) (s e : Int) (f1 f2 : Outcome)
    (rr : List (Int × List addrinfo))
    (htype : ci.type = some .CIO_TYPE_SOCKET) (hmalloc : os.malloc_ok = true)
    (hres : os.resolves =
      (if mysql.bind_address.isSome then [(0, bl)] else []) ++ (0, pre ++ cand :: post) :: rr)
    (hlen : fails.length = pre.length) (hfail : ∀ o ∈ fails, o.rc = -1)
    (hsock : os.sockets = fails ++ ⟨s, e⟩ :: rs) (hs : s ≠ -1)
    (hfc : os.fcntls = f1 :: f2 :: rf)
    (hf2 : f2.rc = -1 → to_my_bool f2.err ≠ SOCKET_ERROR) :
    (∀ (j : Nat) (e2 : Int) (rcn : List Outcome),
      mysql.async_active = false →
      os.connects = List.replicate j ⟨-1, EINTR⟩ ++ ⟨0, e2⟩ :: rcn →
      ∃ (csock1 : st_cio_socket) (os1 : OS) (fl2 : Nat),
        cio_socket_connect (some c) (some ci) mysql os =
          some (0, some { c with data := some csock1, mysql_set := true, type := ci.type },
            mysql, os1)
        ∧ csock1.socket = s
        ∧ os1.open_fds = s :: os.open_fds
        ∧ os1.trace = os.trace ++ (pre ++ [cand]).map Call.socket ++
            (Call.fcntl s O_NONBLOCK :: List.replicate (j + 1) (Call.connect s cand.ai_addr)) ++
            [Call.fcntl s fl2])
    ∧ (∀ (j : Nat) (ep p pe ge : Int) (rcn rp : List Outcome) (rg : List (Outcome × Int)),
      mysql.async_active = false →
      os.connects = List.replicate j ⟨-1, EINTR⟩ ++ ⟨-1, ep⟩ :: rcn →
      (ep = EINPROGRESS ∨ ep = EAGAIN) →
      c.timeout.get .CIO_CONNECT_TIMEOUT ≠ 0 →
      os.polls = ⟨p, pe⟩ :: rp → 0 < p →
      os.getsockopts = (⟨0, ge⟩, 0) :: rg →
      ∃ (csock1 : st_cio_socket) (os1 : OS) (fl2 : Nat),
        cio_socket_connect (some c) (some ci) mysql os =
          some (0, some { c with data := some csock1, mysql_set := true, type := ci.type },
            mysql, os1)
        ∧ csock1.socket = s
        ∧ os1.open_fds = s :: os.open_fds
        ∧ os1.trace = os.trace ++ (pre ++ [cand]).map Call.socket ++
            (Call.fcntl s O_NONBLOCK :: List.replicate (j + 1) (Call.connect s cand.ai_addr) ++
              [Call.wait false (c.timeout.get .CIO_CONNECT_TIMEOUT),
                Call.poll s false (c.timeout.get .CIO_CONNECT_TIMEOUT), Call.getsockopt s]) ++
            [Call.fcntl s fl2])
    ∧ (∀ (ra : List Int),
      mysql.async_active = true →
      os.asyncs = 0 :: ra →
      ∃ (csock1 : st_cio_socket) (os1 : OS) (fl2 : Nat),
        cio_socket_connect (some c) (some ci) mysql os =
          some (0, some { c with data := some csock1, mysql_set := true, type := ci.type },
            mysql, os1)
        ∧ csock1.socket = s
        ∧ os1.open_fds = s :: os.open_fds
        ∧ os1.trace = os.trace ++ (pre ++ [cand]).map Call.socket ++
            [Call.fcntl s O_NONBLOCK,
              Call.connect_async s cand.ai_addr (c.timeout.get .CIO_CONNECT_TIMEOUT)] ++
            [Call.fcntl s fl2]) := by
  have hz : (0 : Nat) ||| O_NONBLOCK = O_NONBLOCK := Nat.zero_or _
  refine ⟨?_, ?_, ?_⟩
  · intro j e2 rcn hasync hc
    apply connect_succeeds_given_step c ci mysql os pre post bl cand fails rs rf s e f2 rr _
      htype hmalloc hres hlen hfail hsock hs hf2
    intro errno1
    obtain ⟨csock2, os3, h, h1, h2, h3, h4⟩ := connect_step_immediate mysql
      { c with
        data := some { socket := -1, fcntl_mode := 0 }, mysql_set := true,
        type := some .CIO_TYPE_SOCKET }
      { socket := s, fcntl_mode := 0 } cand.ai_addr
      { os with
        errno := errno1
        resolves := rr
        sockets := rs
        open_fds := s :: os.open_fds
        trace := os.trace ++ pre.map Call.socket ++ [Call.socket cand] }
      f1 (f2 :: rf) rcn j e2 hasync hfc hc
    exact ⟨csock2, os3, h, h1, h2, h3, by rw [h4]; simp [hz]⟩
  · intro j ep p pe ge rcn rp rg hasync hc hep hT hp hp0 hg
    apply connect_succeeds_given_step c ci mysql os pre post bl cand fails rs rf s e f2 rr _
      htype hmalloc hres hlen hfail hsock hs hf2
    intro errno1
    obtain ⟨csock2, os3, h, h1, h2, h3, h4⟩ := connect_step_in_progress mysql
      { c with
        data := some { socket := -1, fcntl_mode := 0 }, mysql_set := true,
        type := some .CIO_TYPE_SOCKET }
      { socket := s, fcntl_mode := 0 } cand.ai_addr
      { os with
        errno := errno1
        resolves := rr
        sockets := rs
        open_fds := s :: os.open_fds
        trace := os.trace ++ pre.map Call.socket ++ [Call.socket cand] }
      f1 (f2 :: rf) rcn rp j ep p pe ge rg hasync hfc hc hep hT hp hp0 hg
    exact ⟨csock2, os3, h, h1, h2, h3, by rw [h4]; simp [hz]⟩
  · intro ra hasync ha
    apply connect_succeeds_given_step c ci mysql os pre post bl cand fails rs rf s e f2 rr _
      htype hmalloc hres hlen hfail hsock hs hf2
    intro errno1
    obtain ⟨csock2, os3, h, h1, h2, h3, h4⟩ := connect_step_async mysql
      { c with
        data := some { socket := -1, fcntl_mode := 0 }, mysql_set := true,
        type := some .CIO_TYPE_SOCKET }
      { socket := s, fcntl_mode := 0 } cand.ai_addr
      { os with
        errno := errno1
        resolves := rr
        sockets := rs
        open_fds := s :: os.open_fds
        trace := os.trace ++ pre.map Call.socket ++ [Call.socket cand] }
      f1 (f2 :: rf) ra hasync hfc ha
    exact ⟨csock2, os3, h, h1, h2, h3, by rw [h4]; simp [hz]⟩

theorem c10_first_creatable_candidate_connects_witness :
    (∃ (csock1 : st_cio_socket) (os1 : OS) (fl2 : Nat),
      cio_socket_connect (some cio_fresh) (some cinfo_tcp) mysql_plain os_second_candidate =
        some (0, some { cio_fresh with
          data := some csock1, mysql_set := true, type := cinfo_tcp.type }, mysql_plain, os1)
      ∧ csock1.socket = 3
      ∧ os1.open_fds = 3 :: os_second_candidate.open_fds
      ∧ os1.trace = os_second_candidate.trace ++
          ([candidate 1] ++ [candidate 2]).map Call.socket ++
          (Call.fcntl 3 O_NONBLOCK :: List.replicate (0 + 1) (Call.connect 3 (candidate 2).ai_addr))
          ++ [Call.fcntl 3 fl2])
    ∧ (∃ (csock1 : st_cio_socket) (os1 : OS) (fl2 : Nat),
      cio_socket_connect (some cio_fresh) (some cinfo_tcp) mysql_bound
          os_second_candidate_in_progress =
        some (0, some { cio_fresh with
          data := some csock1, mysql_set := true, type := cinfo_tcp.type }, mysql_bound, os1)
      ∧ csock1.socket = 3
      ∧ os1.open_fds = 3 :: os_second_candidate_in_progress.open_fds
      ∧ os1.trace = os_second_candidate_in_progress.trace ++
          ([candidate 1] ++ [candidate 2]).map Call.socket ++
          (Call.fcntl 3 O_NONBLOCK :: List.replicate (1 + 1) (Call.connect 3 (candidate 2).ai_addr)
            ++ [Call.wait false (cio_fresh.timeout.get .CIO_CONNECT_TIMEOUT),
              Call.poll 3 false (cio_fresh.timeout.get .CIO_CONNECT_TIMEOUT),
              Call.getsockopt 3])
          ++ [Call.fcntl 3 fl2])
    ∧ (∃ (csock1 : st_cio_socket) (os1 : OS) (fl2 : Nat),
      cio_socket_connect (some cio_fresh) (some cinfo_tcp) mysql_async
          os_second_candidate_async =
        some (0, some { cio_fresh with
          data := some csock1, mysql_set := true, type := cinfo_tcp.type }, mysql_async, os1)
      ∧ csock1.socket = 3
      ∧ os1.open_fds = 3 :: os_second_candidate_async.open_fds
      ∧ os1.trace = os_second_candidate_async.trace ++
          ([candidate 1] ++ [candidate 2]).map Call.socket ++
          [Call.fcntl 3 O_NONBLOCK,
            Call.connect_async 3 (candidate 2).ai_addr
              (cio_fresh.timeout.get .CIO_CONNECT_TIMEOUT)]
          ++ [Call.fcntl 3 fl2]) :=
  ⟨(c10_first_creatable_candidate_connects cio_fresh cinfo_tcp mysql_plain os_second_candidate
      [candidate 1] [candidate 3] [] (candidate 2) [⟨-1, 24⟩] [] [] 3 0 ⟨0, 0⟩ ⟨0, 0⟩ []
      rfl rfl rfl rfl (by decide) rfl (by decide) rfl (by decide)).1 0 0 [] rfl rfl,
   (c10_first_creatable_candidate_connects cio_fresh cinfo_tcp mysql_bound
      os_second_candidate_in_progress
      [candidate 1] [candidate 3] [candidate 9] (candidate 2) [⟨-1, 24⟩] [] [] 3 0 ⟨0, 0⟩
      ⟨0, 0⟩ [] rfl rfl rfl rfl (by decide) rfl (by decide) rfl (by decide)).2.1
      1 EINPROGRESS 1 0 0 [] [] [] rfl rfl (Or.inl rfl) (by decide) rfl (by decide) rfl,
   (c10_first_creatable_candidate_connects cio_fresh cinfo_tcp mysql_async
      os_second_candidate_async
      [candidate 1] [candidate 3] [] (candidate 2) [⟨-1, 24⟩] [] [] 3 0 ⟨0, 0⟩ ⟨0, 0⟩ []
      rfl rfl rfl rfl (by decide) rfl (by decide) rfl (by decide)).2.2 [] rfl rfl⟩

/-! ## Lifecycle: close -/

/-- C11: for every non-null transport, after a first `cio_socket_close` the
owned state is released (`cio->data` is `NULL`), and a second call returns 0,
makes no call at all (no shutdown, close or free) and leaves transport and
world unchanged; when the transport holds a live handle, the calls of the
first close are exactly one `shutdown`, one `closesocket` and one `my_free`,
and the handle is no longer open. -/
theorem c11_close_twice_is_safe (c : MARIADB_CIO) (sd cl sd2 cl2 : Outcome) (os : OS) :
    (cio_socket_close (some c) sd cl os).2.1 = some { c with data := none }
    ∧ cio_socket_close (cio_socket_close (some c) sd cl os).2.1 sd2 cl2
        (cio_socket_close (some c) sd cl os).2.2 =
      (0, (cio_socket_close (some c) sd cl os).2.1, (cio_socket_close (some c) sd cl os).2.2)
    ∧ (∀ csock : st_cio_socket, c.data = some csock → csock.socket ≠ -1 →
        (cio_socket_close (some c) sd cl os).2.2.trace =
          os.trace ++ [Call.shutdown csock.socket, Call.closesocket csock.socket, Call.my_free]
        ∧ (cio_socket_close (some c) sd cl os).2.2.open_fds = os.open_fds.erase csock.socket) := by
  have h1 : (cio_socket_close (some c) sd cl os).2.1 = some { c with data := none } := by
    obtain ⟨data, timeout, mysql_set, type⟩ := c
    cases data with
    | none => rfl
    | some csock =>
      by_cases hs : csock.socket = -1 <;> simp [cio_socket_close, hs]
  refine ⟨h1, ?_, ?_⟩
  · rw [h1]
    simp [cio_socket_close, to_my_bool]
  · intro csock hd hs
    simp [cio_socket_close, hd, hs, sys_shutdown, sys_closesocket_rc, sys_closesocket]

theorem c11_close_twice_is_safe_witness :
    (cio_socket_close (some cio_connected) ⟨0, 0⟩ ⟨0, 0⟩ { os_idle with open_fds := [3] }).2.2.trace =
        { os_idle with open_fds := [3] }.trace ++
          [Call.shutdown 3, Call.closesocket 3, Call.my_free]
    ∧ (cio_socket_close (some cio_connected) ⟨0, 0⟩ ⟨0, 0⟩
        { os_idle with open_fds := [3] }).2.2.open_fds =
      ({ os_idle with open_fds := [3] } : OS).open_fds.erase 3 :=
  (c11_close_twice_is_safe cio_connected ⟨0, 0⟩ ⟨0, 0⟩ ⟨0, 0⟩ ⟨0, 0⟩
    { os_idle with open_fds := [3] }).2.2 { socket := 3, fcntl_mode := 0 } rfl (by decide)

/-! ## Socket option tuning -/

/-- C12 as stated fails: when the `IP_TOS` call fails, `cio_socket_fast_send`
returns its result and makes no `TCP_NODELAY` call. -/
theorem c12_nodelay_always_attempted_counterexample :
    cio_socket_fast_send (some cio_connected) ⟨-1, 92⟩ ⟨0, 0⟩ os_idle =
      (-1, { os_idle with errno := 92, trace := [Call.setsockopt 3 IPPROTO_IP IP_TOS] })
    ∧ (cio_socket_fast_send (some cio_connected) ⟨-1, 92⟩ ⟨0, 0⟩ os_idle).2.trace.count
        (Call.setsockopt 3 IPPROTO_TCP TCP_NODELAY) ≠ 1 := by
  decide

/-- C12 (amended): on a valid transport `cio_socket_fast_send` first attempts
the type-of-service step; the no-delay step is attempted, exactly once, when
that step returned 0, and its result is returned; when the type-of-service
step failed, the no-delay step is not attempted and the failure is returned. -/
theorem c12_nodelay_after_successful_tos (c : MARIADB_CIO) (csock : st_cio_socket)
    (tos nodelay : Outcome) (os : OS) (hdata : c.data = some csock) :
    (tos.rc = 0 →
      (cio_socket_fast_send (some c) tos nodelay os).1 = nodelay.rc
      ∧ (cio_socket_fast_send (some c) tos nodelay os).2.trace =
        os.trace ++ [Call.setsockopt csock.socket IPPROTO_IP IP_TOS,
          Call.setsockopt csock.socket IPPROTO_TCP TCP_NODELAY])
    ∧ (tos.rc ≠ 0 →
      (cio_socket_fast_send (some c) tos nodelay os).1 = tos.rc
      ∧ (cio_socket_fast_send (some c) tos nodelay os).2.trace =
        os.trace ++ [Call.setsockopt csock.socket IPPROTO_IP IP_TOS]) := by
  constructor
  · intro h
    simp [cio_socket_fast_send, hdata, sys_setsockopt, h]
  · intro h
    simp [cio_socket_fast_send, hdata, sys_setsockopt, h]

theorem c12_nodelay_after_successful_tos_witness :
    ((cio_socket_fast_send (some cio_connected) ⟨0, 0⟩ ⟨0, 0⟩ os_idle).1 = 0
      ∧ (cio_socket_fast_send (some cio_connected) ⟨0, 0⟩ ⟨0, 0⟩ os_idle).2.trace =
        os_idle.trace ++ [Call.setsockopt 3 IPPROTO_IP IP_TOS,
          Call.setsockopt 3 IPPROTO_TCP TCP_NODELAY])
    ∧ ((cio_socket_fast_send (some cio_connected) ⟨-1, 92⟩ ⟨0, 0⟩ os_idle).1 = -1
      ∧ (cio_socket_fast_send (some cio_connected) ⟨-1, 92⟩ ⟨0, 0⟩ os_idle).2.trace =
        os_idle.trace ++ [Call.setsockopt 3 IPPROTO_IP IP_TOS]) :=
  ⟨(c12_nodelay_after_successful_tos cio_connected { socket := 3, fcntl_mode := 0 }
      ⟨0, 0⟩ ⟨0, 0⟩ os_idle rfl).1 rfl,
   (c12_nodelay_after_successful_tos cio_connected { socket := 3, fcntl_mode := 0 }
      ⟨-1, 92⟩ ⟨0, 0⟩ os_idle rfl).2 (by decide)⟩

/-! ## Connect engine: bind address -/

/-- C13 (evaluation at the failing input): with a bind address configured that
resolves to one local candidate, a remote candidate whose socket is created is
connected without any `bind` call: the scripted failing outcome of `bind` is
never consumed, the socket is not closed and `cio_socket_connect` returns 0. -/
theorem c13_bind_address_is_never_bound :
    (cio_socket_connect (some cio_fresh) (some cinfo_tcp) mysql_bound os_bind_would_fail).map
        (fun x => (x.1, x.2.2.2.binds, x.2.2.2.open_fds)) =
      some (0, [⟨-1, 99⟩], [3])
    ∧ (cio_socket_connect (some cio_fresh) (some cinfo_tcp) mysql_bound os_bind_would_fail).map
        (fun x => x.2.2.2.trace) =
      some [Call.socket (candidate 1), Call.fcntl 3 2048, Call.connect 3 1, Call.fcntl 3 0] :=
  ⟨rfl, rfl⟩

end CioSocket
